import Mathlib

/-!
# ObjectGuid: identifier layout, classification and counter generation

A shallow embedding of `src/server/game/Entities/Object/ObjectGuid.h`.

* `uint64` and `uint32` values are natural numbers; every operation that can
  leave the machine range is followed by an explicit reduction modulo `2^64`
  or `2^32`.
* `enum class HighGuid` has underlying type `int`; a tag is therefore a wrapped
  integer, so that the values produced by `static_cast<HighGuid>(...)` in
  `GetHigh` (which need not be declared enumerators) are representable.
* The generator is a state record; the calls it makes to its two external
  hooks are recorded, in order, in a call trace. The overflow hook is only
  declared in the header; what a caller sees when that hook keeps control
  is modelled on top, by `GenerateCall`.
-/

namespace ObjectGuidSpec

/-! ## Enumerations -/

/-- Client object types, `enum TypeID`. -/
inductive TypeID where
  | TYPEID_OBJECT
  | TYPEID_ITEM
  | TYPEID_CONTAINER
  | TYPEID_UNIT
  | TYPEID_PLAYER
  | TYPEID_GAMEOBJECT
  | TYPEID_DYNAMICOBJECT
  | TYPEID_CORPSE
  | TYPEID_AREATRIGGER
  deriving DecidableEq, Repr

/-- Numeric value of a `TypeID` enumerator. -/
def TypeID.toNat : TypeID → Nat
  | .TYPEID_OBJECT => 0
  | .TYPEID_ITEM => 1
  | .TYPEID_CONTAINER => 2
  | .TYPEID_UNIT => 3
  | .TYPEID_PLAYER => 4
  | .TYPEID_GAMEOBJECT => 5
  | .TYPEID_DYNAMICOBJECT => 6
  | .TYPEID_CORPSE => 7
  | .TYPEID_AREATRIGGER => 8

/-- A value of `enum class HighGuid` (underlying type `int`). -/
structure HighGuid where
  val : Int
  deriving DecidableEq, Repr

namespace HighGuid

def Item : HighGuid := ⟨0x400⟩
def Container : HighGuid := ⟨0x400⟩
def Player : HighGuid := ⟨0x000⟩
def GameObject : HighGuid := ⟨0xF11⟩
def Transport : HighGuid := ⟨0xF12⟩
def Unit : HighGuid := ⟨0xF13⟩
def Pet : HighGuid := ⟨0xF14⟩
def Vehicle : HighGuid := ⟨0xF15⟩
def DynamicObject : HighGuid := ⟨0xF10⟩
def Corpse : HighGuid := ⟨0xF101⟩
def AreaTrigger : HighGuid := ⟨0xF102⟩
def BattleGround : HighGuid := ⟨0x1F1⟩
def Mo_Transport : HighGuid := ⟨0x1FC⟩
def Instance : HighGuid := ⟨0x1F4⟩
def Group : HighGuid := ⟨0x1F5⟩
def Guild : HighGuid := ⟨0x1FF⟩

/-- The enumerators declared by `enum class HighGuid`, in declaration order. -/
def declared : List HighGuid :=
  [Item, Container, Player, GameObject, Transport, Unit, Pet, Vehicle, DynamicObject,
   Corpse, AreaTrigger, BattleGround, Mo_Transport, Instance, Group, Guild]

/-- The conversion `uint64(hi)` of an `int`-based enumerator: reduction modulo `2^64`. -/
def toUInt64 (hi : HighGuid) : Nat := (hi.val % 2 ^ 64).toNat

/-- The conversion `(uint32)hi`: reduction modulo `2^32`. -/
def toUInt32 (hi : HighGuid) : Nat := (hi.val % 2 ^ 32).toNat

/-- The conversion `static_cast<HighGuid>(n)` / `HighGuid(n)` of an unsigned value that fits
in `int`. -/
def ofNat (n : Nat) : HighGuid := ⟨(n : Int)⟩

end HighGuid

/-! ## ObjectGuidTraits -/

/-- The member `ObjectGuidTraits<guid>::Global`: `true` exactly for the tags specialised by
`GUID_TRAIT_GLOBAL`. -/
def ObjectGuidTraits.Global (guid : HighGuid) : Bool :=
  guid = HighGuid.Mo_Transport || guid = HighGuid.Group || guid = HighGuid.Instance ||
  guid = HighGuid.BattleGround || guid = HighGuid.Player || guid = HighGuid.Item ||
  guid = HighGuid.Transport || guid = HighGuid.Guild

/-- The member `ObjectGuidTraits<guid>::MapSpecific`: `true` exactly for the tags specialised
by `GUID_TRAIT_MAP_SPECIFIC`. -/
def ObjectGuidTraits.MapSpecific (guid : HighGuid) : Bool :=
  guid = HighGuid.Unit || guid = HighGuid.Vehicle || guid = HighGuid.Pet ||
  guid = HighGuid.GameObject || guid = HighGuid.DynamicObject || guid = HighGuid.Corpse ||
  guid = HighGuid.AreaTrigger

/-! ## ObjectGuid -/

/-- The class `ObjectGuid`: one `uint64` field. -/
structure ObjectGuid where
  _guid : Nat
  deriving DecidableEq, Repr

namespace ObjectGuid

/-- The shift applied to the tag: `(hi == Corpse || hi == AreaTrigger) ? 48 : 52`. -/
def highShift (hi : HighGuid) : Nat :=
  if hi = HighGuid.Corpse ∨ hi = HighGuid.AreaTrigger then 48 else 52

/-- Default constructor `ObjectGuid()`. -/
def new : ObjectGuid := ⟨0⟩

/-- Constructor `explicit ObjectGuid(uint64 guid)`. -/
def ofRaw (guid : Nat) : ObjectGuid := ⟨guid⟩

/-- Constructor `ObjectGuid(HighGuid hi, uint32 entry, uint32 counter)`. The shifts are
`uint64` shifts, hence reduced modulo `2^64`. -/
def ofEntry (hi : HighGuid) (entry counter : Nat) : ObjectGuid :=
  ⟨if counter ≠ 0 then
      counter ||| ((entry <<< 32) % 2 ^ 64) ||| ((hi.toUInt64 <<< highShift hi) % 2 ^ 64)
    else 0⟩

/-- Constructor `ObjectGuid(HighGuid hi, uint32 counter)`. -/
def ofCounter (hi : HighGuid) (counter : Nat) : ObjectGuid :=
  ⟨if counter ≠ 0 then counter ||| ((hi.toUInt64 <<< highShift hi) % 2 ^ 64) else 0⟩

/-- Modelled from the spec: the static member `ObjectGuid::Empty` is only declared in the
header; the spec fixes it as the single all-zero sentinel identifier. -/
def Empty : ObjectGuid := ⟨0⟩

def GetRawValue (g : ObjectGuid) : Nat := g._guid

/-- The method `GetHigh`. -/
def GetHigh (g : ObjectGuid) : HighGuid :=
  let temp : HighGuid := HighGuid.ofNat ((g._guid >>> 48) &&& 0x0000FFFF)
  if temp = HighGuid.Corpse ∨ temp = HighGuid.AreaTrigger then temp
  else HighGuid.ofNat ((temp.toUInt32 >>> 4) &&& 0x00000FFF)

/-- The private static `HasEntry(HighGuid high)`. -/
def HasEntryOf (high : HighGuid) : Bool :=
  if high = HighGuid.Item ∨ high = HighGuid.Player ∨ high = HighGuid.DynamicObject ∨
      high = HighGuid.Corpse ∨ high = HighGuid.Mo_Transport ∨ high = HighGuid.Instance ∨
      high = HighGuid.Group then false
  else true

/-- The private method `HasEntry()`. -/
def HasEntry (g : ObjectGuid) : Bool := HasEntryOf g.GetHigh

/-- The method `GetEntry`. -/
def GetEntry (g : ObjectGuid) : Nat :=
  if g.HasEntry then ((g._guid >>> 32) &&& 0x00000000000FFFFF) % 2 ^ 32 else 0

/-- The method `GetCounter`. -/
def GetCounter (g : ObjectGuid) : Nat := (g._guid &&& 0x00000000FFFFFFFF) % 2 ^ 32

/-- The static `GetMaxCounter(HighGuid)`. -/
def GetMaxCounterOf (_high : HighGuid) : Nat := 0xFFFFFFFF

/-- The method `GetMaxCounter()`. -/
def GetMaxCounter (g : ObjectGuid) : Nat := GetMaxCounterOf g.GetHigh

def IsEmpty (g : ObjectGuid) : Bool := g._guid = 0
def IsCreature (g : ObjectGuid) : Bool := g.GetHigh = HighGuid.Unit
def IsPet (g : ObjectGuid) : Bool := g.GetHigh = HighGuid.Pet
def IsVehicle (g : ObjectGuid) : Bool := g.GetHigh = HighGuid.Vehicle
def IsCreatureOrPet (g : ObjectGuid) : Bool := g.IsCreature || g.IsPet
def IsCreatureOrVehicle (g : ObjectGuid) : Bool := g.IsCreature || g.IsVehicle
def IsAnyTypeCreature (g : ObjectGuid) : Bool := g.IsCreature || g.IsPet || g.IsVehicle
def IsPlayer (g : ObjectGuid) : Bool := !g.IsEmpty && g.GetHigh = HighGuid.Player
def IsUnit (g : ObjectGuid) : Bool := g.IsAnyTypeCreature || g.IsPlayer
def IsItem (g : ObjectGuid) : Bool := g.GetHigh = HighGuid.Item
def IsGameObject (g : ObjectGuid) : Bool := g.GetHigh = HighGuid.GameObject
def IsDynamicObject (g : ObjectGuid) : Bool := g.GetHigh = HighGuid.DynamicObject
def IsCorpse (g : ObjectGuid) : Bool := g.GetHigh = HighGuid.Corpse
def IsAreaTrigger (g : ObjectGuid) : Bool := g.GetHigh = HighGuid.AreaTrigger
def IsBattleground (g : ObjectGuid) : Bool := g.GetHigh = HighGuid.BattleGround
def IsTransport (g : ObjectGuid) : Bool := g.GetHigh = HighGuid.Transport
def IsMOTransport (g : ObjectGuid) : Bool := g.GetHigh = HighGuid.Mo_Transport
def IsAnyTypeGameObject (g : ObjectGuid) : Bool :=
  g.IsGameObject || g.IsTransport || g.IsMOTransport
def IsInstance (g : ObjectGuid) : Bool := g.GetHigh = HighGuid.Instance
def IsGroup (g : ObjectGuid) : Bool := g.GetHigh = HighGuid.Group
def IsGuild (g : ObjectGuid) : Bool := g.GetHigh = HighGuid.Guild

/-- The static `GetTypeId(HighGuid high)`. -/
def GetTypeIdOf (high : HighGuid) : TypeID :=
  if high = HighGuid.Item then TypeID.TYPEID_ITEM
  else if high = HighGuid.Unit then TypeID.TYPEID_UNIT
  else if high = HighGuid.Pet then TypeID.TYPEID_UNIT
  else if high = HighGuid.Player then TypeID.TYPEID_PLAYER
  else if high = HighGuid.GameObject then TypeID.TYPEID_GAMEOBJECT
  else if high = HighGuid.DynamicObject then TypeID.TYPEID_DYNAMICOBJECT
  else if high = HighGuid.Corpse then TypeID.TYPEID_CORPSE
  else if high = HighGuid.AreaTrigger then TypeID.TYPEID_AREATRIGGER
  else if high = HighGuid.Mo_Transport then TypeID.TYPEID_GAMEOBJECT
  else if high = HighGuid.Vehicle then TypeID.TYPEID_UNIT
  else TypeID.TYPEID_OBJECT

/-- The method `GetTypeId()`. -/
def GetTypeId (g : ObjectGuid) : TypeID := GetTypeIdOf g.GetHigh

end ObjectGuid

/-! ## Counter generator -/

/-- A call made by `Generate` to one of the two static hooks of `ObjectGuidGeneratorBase`.
Their bodies live outside the header, which only declares them: a call is recorded with its
argument. -/
inductive HookCall where
  | HandleCounterOverflow (high : HighGuid)
  | CheckGuidTrigger (guid : Nat)
  deriving DecidableEq, Repr

/-- The class `ObjectGuidGeneratorBase`: the `uint32` cursor `_nextGuid`. -/
structure ObjectGuidGeneratorBase where
  _nextGuid : Nat
  deriving DecidableEq, Repr

namespace ObjectGuidGeneratorBase

/-- Constructor `ObjectGuidGeneratorBase(LowType start)`. -/
def new (start : Nat) : ObjectGuidGeneratorBase := ⟨start⟩

/-- Constructor with the default argument `start = 1`. -/
def newDefault : ObjectGuidGeneratorBase := new 1

/-- The method `Set(LowType val)`: `_nextGuid = val`. -/
def Set (_g : ObjectGuidGeneratorBase) (val : Nat) : ObjectGuidGeneratorBase := ⟨val⟩

end ObjectGuidGeneratorBase

/-- What one `Generate` call does: the hook calls it made, in order, the value it returned,
and the generator afterwards. -/
structure GenerateResult where
  calls : List HookCall
  value : Nat
  gen : ObjectGuidGeneratorBase
  deriving DecidableEq, Repr

namespace ObjectGuidGenerator

/-- The method `ObjectGuidGenerator<high>::Generate()`, its statements in order and run through
to the `return`: the hook calls it makes, the value returned and the cursor afterwards. The
post-increment `_nextGuid++` is a `uint32` increment, hence reduced modulo `2^32`. What the
caller gets when the overflow handler keeps control is described by `GenerateCall`. -/
def Generate (high : HighGuid) (g : ObjectGuidGeneratorBase) : GenerateResult :=
  let overflow : List HookCall :=
    if g._nextGuid ≥ ObjectGuid.GetMaxCounterOf high - 1 then
      [HookCall.HandleCounterOverflow high]
    else []
  let trigger : List HookCall :=
    if high = HighGuid.Unit ∨ high = HighGuid.GameObject then
      [HookCall.CheckGuidTrigger g._nextGuid]
    else []
  { calls := overflow ++ trigger
    value := g._nextGuid
    gen := ⟨(g._nextGuid + 1) % 2 ^ 32⟩ }

/-- The effect of `n` consecutive `Generate()` calls on one generator: the results in call
order and the generator afterwards. -/
def run (high : HighGuid) : Nat → ObjectGuidGeneratorBase →
    List GenerateResult × ObjectGuidGeneratorBase
  | 0, g => ([], g)
  | n + 1, g =>
    let r := Generate high g
    let rest := run high n r.gen
    (r :: rest.1, rest.2)

end ObjectGuidGenerator

namespace ObjectGuid

/-- The member `operator==`. -/
def opEq (a b : ObjectGuid) : Bool := a.GetRawValue = b.GetRawValue

/-- The member `operator!=`. -/
def opNe (a b : ObjectGuid) : Bool := a.GetRawValue ≠ b.GetRawValue

/-- The member `operator<`. -/
def opLt (a b : ObjectGuid) : Bool := a.GetRawValue < b.GetRawValue

/-- The specialisation `std::hash<ObjectGuid>`: the standard library's `std::hash<uint64>`,
taken as the parameter `hash64`, applied to the raw value. -/
def hash (hash64 : Nat → Nat) (key : ObjectGuid) : Nat := hash64 key.GetRawValue

/-- Modelled from the spec: the private static `Global(type, counter)` is only declared in the
header; the spec has Global categories constructed from (tag, counter) only. -/
def Global (type : HighGuid) (counter : Nat) : ObjectGuid := ofCounter type counter

/-- Modelled from the spec: the private static `MapSpecific(type, entry, counter)` is only
declared in the header; the spec has MapSpecific categories constructed from
(tag, subtype, counter). -/
def MapSpecific (type : HighGuid) (entry counter : Nat) : ObjectGuid :=
  ofEntry type entry counter

/-- The overload `Create<type>(LowType counter)`. Its return type is
`std::enable_if<ObjectGuidTraits<type>::Global, ObjectGuid>::type`, so the overload exists only
for a tag whose `Global` trait is true; `none` stands for a call that does not compile. -/
def CreateGlobal (type : HighGuid) (counter : Nat) : Option ObjectGuid :=
  if ObjectGuidTraits.Global type then some (Global type counter) else none

/-- The overload `Create<type>(uint32 entry, LowType counter)`, which exists only for a tag
whose `MapSpecific` trait is true. -/
def CreateMapSpecific (type : HighGuid) (entry counter : Nat) : Option ObjectGuid :=
  if ObjectGuidTraits.MapSpecific type then some (MapSpecific type entry counter) else none

end ObjectGuid

/-! ## Packed encoding -/

/-- Modelled from the spec: byte `i` of a raw value viewed least-significant byte first
(the byte buffer's pack and unpack routines are not part of the header). -/
def packedByte (raw i : Nat) : Nat := (raw >>> (8 * i)) % 256

/-- Modelled from the spec: the mask restricted to the byte positions below `n`; bit `i` is
set iff byte `i` of the raw value is non-zero. -/
def packedMask (raw : Nat) : Nat → Nat
  | 0 => 0
  | n + 1 => packedMask raw n + (if packedByte raw n ≠ 0 then 2 ^ n else 0)

/-- Modelled from the spec: the non-zero bytes at the `count` positions from `i` upwards, in
ascending position order. -/
def packedPayload (raw : Nat) : Nat → Nat → List Nat
  | 0, _ => []
  | count + 1, i =>
    if packedByte raw i ≠ 0 then packedByte raw i :: packedPayload raw count (i + 1)
    else packedPayload raw count (i + 1)

/-- Modelled from the spec: `ByteBuffer::appendPackGUID` on an empty buffer, the spec's
`Encode`: the mask byte followed by each non-zero byte in ascending position order. -/
def appendPackGUID (raw : Nat) : List Nat := packedMask raw 8 :: packedPayload raw 8 0

/-- Modelled from the spec: the loop of `Decode` over the `count` positions from `i` upwards;
for each set mask bit the next input byte is consumed and placed at that byte position, and
exhausted input is an error. The unread input is returned with the value. -/
def readPackGUIDLoop (mask : Nat) : Nat → Nat → List Nat → Nat → Option (Nat × List Nat)
  | 0, _, input, acc => some (acc, input)
  | count + 1, i, input, acc =>
    if mask.testBit i then
      match input with
      | [] => none
      | b :: rest => readPackGUIDLoop mask count (i + 1) rest (acc ||| (b <<< (8 * i)))
    else readPackGUIDLoop mask count (i + 1) input acc

/-- Modelled from the spec: `operator>>(ByteBuffer&, PackedGuidReader const&)`, the spec's
`Decode`: read the mask byte, then the payload bytes it announces. -/
def readPackGUID : List Nat → Option (Nat × List Nat)
  | [] => none
  | mask :: rest => readPackGUIDLoop mask 8 0 rest 0

/-- The class `PackedGuid`: the bytes held by its `ByteBuffer`. -/
structure PackedGuid where
  _packedGuid : List Nat
  deriving DecidableEq, Repr

/-- Constructor `explicit PackedGuid(uint64 guid)`: an empty buffer (nine bytes reserved) to
which the packed form of `guid` is appended. -/
def PackedGuid.ofRaw (guid : Nat) : PackedGuid := ⟨appendPackGUID guid⟩

/-- The method `PackedGuid::size()`. -/
def PackedGuid.size (p : PackedGuid) : Nat := p._packedGuid.length

/-! ## Counter exhaustion as a stop -/

/-- Modelled from the spec: whether `HandleCounterOverflow`, which the header only declares,
hands control back to `Generate`. The spec makes counter exhaustion a fatal, category-scoped
abort, "a deliberate fatal stop, not a retryable condition", "not retried, not silently
wrapped": it does not. -/
def ObjectGuidGeneratorBase.HandleCounterOverflowReturns : Bool := false

/-- What the caller of one `Generate()` call gets: the hook calls made, in order, the value
returned (`none` when the call did not return) and the generator afterwards. -/
structure GenerateOutcome where
  calls : List HookCall
  value : Option Nat
  gen : ObjectGuidGeneratorBase
  deriving DecidableEq, Repr

namespace ObjectGuidGenerator

/-- One `Generate()` call as its caller sees it, given whether the overflow handler hands
control back. When `HandleCounterOverflow(high)` is entered and keeps control, no later
statement of `Generate` is executed: the trigger hook is not called, no value is returned and
`_nextGuid` is not incremented. Otherwise the call runs to its `return` as in `Generate`. -/
def GenerateCall (handlerReturns : Bool) (high : HighGuid) (g : ObjectGuidGeneratorBase) :
    GenerateOutcome :=
  if g._nextGuid ≥ ObjectGuid.GetMaxCounterOf high - 1 ∧ handlerReturns = false then
    { calls := [HookCall.HandleCounterOverflow high]
      value := none
      gen := g }
  else
    { calls := (Generate high g).calls
      value := some (Generate high g).value
      gen := (Generate high g).gen }

/-- The effect of `n` consecutive `Generate()` calls on one generator, as seen by the caller:
the outcomes in call order and the generator afterwards. -/
def runCalls (handlerReturns : Bool) (high : HighGuid) : Nat → ObjectGuidGeneratorBase →
    List GenerateOutcome × ObjectGuidGeneratorBase
  | 0, g => ([], g)
  | n + 1, g =>
    let o := GenerateCall handlerReturns high g
    let rest := runCalls handlerReturns high n o.gen
    (o :: rest.1, rest.2)

end ObjectGuidGenerator

/-- The tag `GetHigh` decodes from the 16-bit field `(_guid >> 48) & 0xFFFF`: the body of
`GetHigh` as a function of that field. -/
def ObjectGuid.highOfTop (t : Nat) : HighGuid :=
  let temp : HighGuid := HighGuid.ofNat t
  if temp = HighGuid.Corpse ∨ temp = HighGuid.AreaTrigger then temp
  else HighGuid.ofNat ((temp.toUInt32 >>> 4) &&& 0x00000FFF)

/-! ## Bit-level lemmas about the composed raw value -/

theorem GetHigh_eq_highOfTop (g : ObjectGuid) :
    g.GetHigh = ObjectGuid.highOfTop ((g._guid >>> 48) &&& 0x0000FFFF) := rfl

theorem highShift_ge (hi : HighGuid) : 48 ≤ ObjectGuid.highShift hi := by
  unfold ObjectGuid.highShift
  split <;> omega

theorem testBit_high_of_lt (c k i : Nat) (hc : c < 2 ^ k) (hi : k ≤ i) : c.testBit i = false :=
  Nat.testBit_lt_two_pow (lt_of_lt_of_le hc (Nat.pow_le_pow_right (by norm_num) hi))

/-- The low 32 bits of the composed value are the counter. -/
theorem composed_low32 (c A B s : Nat) (hc : c < 2 ^ 32) (hs : 32 ≤ s) :
    (c ||| ((A <<< 32) % 2 ^ 64) ||| ((B <<< s) % 2 ^ 64)) &&& 0x00000000FFFFFFFF = c := by
  rw [show (0x00000000FFFFFFFF : Nat) = 2 ^ 32 - 1 from rfl, Nat.and_pow_two_sub_one_eq_mod]
  apply Nat.eq_of_testBit_eq
  intro i
  simp only [Nat.testBit_mod_two_pow, Nat.testBit_or, Nat.testBit_shiftLeft]
  by_cases h : i < 32
  · have h1 : ¬ (i ≥ 32) := by omega
    have h2 : ¬ (i ≥ s) := by omega
    simp [h, h1, h2]
  · have hci : c.testBit i = false := testBit_high_of_lt c 32 i hc (by omega)
    simp [h, hci]

/-- The 16-bit field read by `GetHigh`, in terms of the composed parts. -/
theorem composed_top16 (c e H s : Nat) (hc : c < 2 ^ 32) (hs : 48 ≤ s) :
    ((c ||| ((e <<< 32) % 2 ^ 64) ||| ((H <<< s) % 2 ^ 64)) >>> 48) &&& 0x0000FFFF
      = ((e >>> 16) % 2 ^ 16) ||| ((H <<< (s - 48)) % 2 ^ 16) := by
  rw [show (0x0000FFFF : Nat) = 2 ^ 16 - 1 from rfl, Nat.and_pow_two_sub_one_eq_mod]
  apply Nat.eq_of_testBit_eq
  intro i
  simp only [Nat.testBit_mod_two_pow, Nat.testBit_or, Nat.testBit_shiftLeft,
    Nat.testBit_shiftRight]
  have hci : c.testBit (48 + i) = false := testBit_high_of_lt c 32 (48 + i) hc (by omega)
  by_cases h : i < 16
  · have e1 : 48 + i - 32 = 16 + i := by omega
    have e2 : 48 + i - s = i - (s - 48) := by omega
    have e3 : (48 + i ≥ s) ↔ (i ≥ s - 48) := by omega
    have h4 : 48 + i < 64 := by omega
    have h5 : 48 + i ≥ 32 := by omega
    simp [h, hci, e1, e2, e3, h4, h5]
  · simp [h]

/-- The 20-bit field read by `GetEntry`, in terms of the composed parts. -/
theorem composed_mid20 (c e H s : Nat) (hc : c < 2 ^ 32) (hs : 32 ≤ s) :
    ((c ||| ((e <<< 32) % 2 ^ 64) ||| ((H <<< s) % 2 ^ 64)) >>> 32) &&& 0x00000000000FFFFF
      = (e % 2 ^ 20) ||| ((H <<< (s - 32)) % 2 ^ 20) := by
  rw [show (0x00000000000FFFFF : Nat) = 2 ^ 20 - 1 from rfl, Nat.and_pow_two_sub_one_eq_mod]
  apply Nat.eq_of_testBit_eq
  intro i
  simp only [Nat.testBit_mod_two_pow, Nat.testBit_or, Nat.testBit_shiftLeft,
    Nat.testBit_shiftRight]
  have hci : c.testBit (32 + i) = false := testBit_high_of_lt c 32 (32 + i) hc (by omega)
  by_cases h : i < 20
  · have e1 : 32 + i - 32 = i := by omega
    have e2 : 32 + i - s = i - (s - 32) := by omega
    have e3 : (32 + i ≥ s) ↔ (i ≥ s - 32) := by omega
    have h4 : 32 + i < 64 := by omega
    have h5 : 32 + i ≥ 32 := by omega
    simp [h, hci, e1, e2, e3, h4, h5]
  · simp [h]

/-- The raw value built by the two-argument constructor is the three-argument one at
entry `0`. -/
theorem ofCounter_eq_ofEntry_zero (hi : HighGuid) (c : Nat) :
    ObjectGuid.ofCounter hi c = ObjectGuid.ofEntry hi 0 c := by
  simp [ObjectGuid.ofCounter, ObjectGuid.ofEntry]

/-- The tag decoded from a composed identifier depends only on the tag and on bits 16..19 of
the entry. -/
theorem GetHigh_ofEntry (hi : HighGuid) (e c : Nat) (he : e < 2 ^ 20) (hc : c < 2 ^ 32)
    (hc0 : c ≠ 0) :
    (ObjectGuid.ofEntry hi e c).GetHigh =
      ObjectGuid.highOfTop
        ((e / 2 ^ 16) ||| ((hi.toUInt64 <<< (ObjectGuid.highShift hi - 48)) % 2 ^ 16)) := by
  rw [GetHigh_eq_highOfTop]
  simp only [ObjectGuid.ofEntry, if_pos hc0]
  rw [composed_top16 c e _ _ hc (highShift_ge hi), Nat.shiftRight_eq_div_pow]
  have : e / 2 ^ 16 % 2 ^ 16 = e / 2 ^ 16 := by omega
  rw [this]

/-- Exhaustive check of the tag decoder over the declared tags and the sixteen values of
bits 16..19 of the entry. -/
theorem highOfTop_declared :
    ∀ hi ∈ HighGuid.declared, ∀ x < 16,
      (ObjectGuid.highOfTop
          (x ||| ((hi.toUInt64 <<< (ObjectGuid.highShift hi - 48)) % 2 ^ 16)) = hi ↔
        ((hi = HighGuid.DynamicObject → x ≠ 1 ∧ x ≠ 2) ∧
         (hi = HighGuid.Corpse → x < 2) ∧
         (hi = HighGuid.AreaTrigger → x = 0 ∨ x = 2))) := by
  decide

/-! ## Composition and decomposition -/

/-- C1 (amended): for a declared tag, a subtype below `2^20` and a non-zero 32-bit counter,
`GetHigh` of the composed identifier gives the tag back exactly when bits 16..19 of the
subtype do not disturb the 16-bit tag field: for `DynamicObject` they are neither 1 nor 2,
for `Corpse` they are 0 or 1, for `AreaTrigger` they are 0 or 2; every other declared tag is
always recovered, and so is every declared tag when the subtype is below `2^16`. -/
theorem tag_round_trip_iff (hi : HighGuid) (e c : Nat) (hd : hi ∈ HighGuid.declared)
    (he : e < 2 ^ 20) (hc : c < 2 ^ 32) (hc0 : c ≠ 0) :
    (ObjectGuid.ofEntry hi e c).GetHigh = hi ↔
      ((hi = HighGuid.DynamicObject → e / 2 ^ 16 ≠ 1 ∧ e / 2 ^ 16 ≠ 2) ∧
       (hi = HighGuid.Corpse → e / 2 ^ 16 < 2) ∧
       (hi = HighGuid.AreaTrigger → e / 2 ^ 16 = 0 ∨ e / 2 ^ 16 = 2)) := by
  rw [GetHigh_ofEntry hi e c he hc hc0]
  exact highOfTop_declared hi hd (e / 2 ^ 16) (by omega)

/-- Witness for C1 (amended): `Unit`, subtype 1234, counter 1. -/
theorem tag_round_trip_iff_witness :
    (ObjectGuid.ofEntry HighGuid.Unit 1234 1).GetHigh = HighGuid.Unit ↔
      ((HighGuid.Unit = HighGuid.DynamicObject → 1234 / 2 ^ 16 ≠ 1 ∧ 1234 / 2 ^ 16 ≠ 2) ∧
       (HighGuid.Unit = HighGuid.Corpse → 1234 / 2 ^ 16 < 2) ∧
       (HighGuid.Unit = HighGuid.AreaTrigger → 1234 / 2 ^ 16 = 0 ∨ 1234 / 2 ^ 16 = 2)) :=
  tag_round_trip_iff HighGuid.Unit 1234 1 (by decide) (by decide) (by decide) (by decide)

/-- C1 (as stated) fails: `DynamicObject` with subtype `0x10000` (which fits in 20 bits) and
counter 1 decodes as `Corpse`, and `Corpse` with subtype `0x20000` decodes as
`DynamicObject`. -/
theorem tag_round_trip_fails :
    HighGuid.DynamicObject ∈ HighGuid.declared ∧ HighGuid.Corpse ∈ HighGuid.declared ∧
    0x10000 < 2 ^ 20 ∧ 0x20000 < 2 ^ 20 ∧ (1 : Nat) ≠ 0 ∧ 1 < 2 ^ 32 ∧
    (ObjectGuid.ofEntry HighGuid.DynamicObject 0x10000 1).GetHigh = HighGuid.Corpse ∧
    (ObjectGuid.ofEntry HighGuid.Corpse 0x20000 1).GetHigh = HighGuid.DynamicObject ∧
    HighGuid.Corpse ≠ HighGuid.DynamicObject := by
  decide

set_option maxRecDepth 100000 in
/-- Exhaustive check of `HasEntry` on the decoded tag, over the declared tags other than
`AreaTrigger` and the sixteen values of bits 16..19 of the entry. -/
theorem hasEntry_highOfTop_declared :
    ∀ hi ∈ HighGuid.declared, ∀ x < 16,
      hi ≠ HighGuid.AreaTrigger → (hi = HighGuid.DynamicObject → x ≠ 2) →
      ObjectGuid.HasEntryOf
          (ObjectGuid.highOfTop
            (x ||| ((hi.toUInt64 <<< (ObjectGuid.highShift hi - 48)) % 2 ^ 16))) =
        ObjectGuid.HasEntryOf hi := by
  decide

theorem shiftLeft_mod_self (H k : Nat) : (H <<< k) % 2 ^ k = 0 := by
  rw [Nat.shiftLeft_eq, Nat.mul_mod_left]

/-- The 20-bit entry field of an identifier whose tag sits at bit 52. -/
theorem entryField_shift52 (hi : HighGuid) (e c : Nat) (he : e < 2 ^ 20) (hc : c < 2 ^ 32)
    (hc0 : c ≠ 0) (hs : ObjectGuid.highShift hi = 52) :
    ((ObjectGuid.ofEntry hi e c)._guid >>> 32) &&& 0x00000000000FFFFF = e := by
  simp only [ObjectGuid.ofEntry, if_pos hc0]
  rw [composed_mid20 c e _ _ hc (by omega), hs]
  have h20 : (52 - 32 : Nat) = 20 := by norm_num
  rw [h20, shiftLeft_mod_self, Nat.or_zero]
  omega

/-- Where `GetEntry` does read the subtype back: for a declared tag other than `AreaTrigger`, a
subtype below `2^20` (for `DynamicObject`: with bits 16..19 different from 2, so that the
identifier does not decode as `AreaTrigger`) and a non-zero 32-bit counter, `GetEntry` of the
composed identifier is the subtype when `HasEntry(tag)` holds and 0 otherwise. -/
theorem subtype_round_trip (hi : HighGuid) (e c : Nat) (hd : hi ∈ HighGuid.declared)
    (hat : hi ≠ HighGuid.AreaTrigger) (hdyn : hi = HighGuid.DynamicObject → e / 2 ^ 16 ≠ 2)
    (he : e < 2 ^ 20) (hc : c < 2 ^ 32) (hc0 : c ≠ 0) :
    (ObjectGuid.ofEntry hi e c).GetEntry = if ObjectGuid.HasEntryOf hi then e else 0 := by
  have hx : e / 2 ^ 16 < 16 := by omega
  have hE : (ObjectGuid.ofEntry hi e c).HasEntry = ObjectGuid.HasEntryOf hi := by
    unfold ObjectGuid.HasEntry
    rw [GetHigh_ofEntry hi e c he hc hc0]
    exact hasEntry_highOfTop_declared hi hd (e / 2 ^ 16) hx hat hdyn
  unfold ObjectGuid.GetEntry
  rw [hE]
  cases hh : ObjectGuid.HasEntryOf hi with
  | false => simp
  | true =>
    have hco : hi ≠ HighGuid.Corpse := by
      intro h
      rw [h] at hh
      exact absurd hh (by decide)
    have hs : ObjectGuid.highShift hi = 52 := by simp [ObjectGuid.highShift, hco, hat]
    rw [entryField_shift52 hi e c he hc hc0 hs]
    simp only [if_true]
    omega

/-- An instance of `subtype_round_trip`: `Unit`, subtype 1234, counter 1 reads back 1234. -/
theorem subtype_round_trip_witness :
    (ObjectGuid.ofEntry HighGuid.Unit 1234 1).GetEntry =
      if ObjectGuid.HasEntryOf HighGuid.Unit then 1234 else 0 :=
  subtype_round_trip HighGuid.Unit 1234 1 (by decide) (by decide) (by decide) (by decide)
    (by decide) (by decide)

/-- C2, evaluated on the code: `HasEntry` has no case for `AreaTrigger` (its sibling `Corpse`
is listed) and so answers true for it, and `GetEntry` then reads 20 bits that include tag bits:
`AreaTrigger` with subtype 5 and counter 1 reads back `0x20005` instead of 5, and
`DynamicObject` (for which `HasEntry` is false) with subtype `0x20000` and counter 1, which
decodes as `AreaTrigger`, reads back `0x20000` instead of 0. -/
theorem subtype_round_trip_fails :
    HighGuid.AreaTrigger ∈ HighGuid.declared ∧
    ObjectGuid.HasEntryOf HighGuid.AreaTrigger = true ∧
    (ObjectGuid.ofEntry HighGuid.AreaTrigger 5 1).GetEntry = 0x20005 ∧
    HighGuid.DynamicObject ∈ HighGuid.declared ∧
    ObjectGuid.HasEntryOf HighGuid.DynamicObject = false ∧
    (ObjectGuid.ofEntry HighGuid.DynamicObject 0x20000 1).GetEntry = 0x20000 ∧
    5 < 2 ^ 20 ∧ 0x20000 < 2 ^ 20 := by
  decide

theorem raw_low32_ofEntry (hi : HighGuid) (e c : Nat) (hc : c < 2 ^ 32) :
    (ObjectGuid.ofEntry hi e c)._guid &&& 0x00000000FFFFFFFF = c := by
  by_cases hc0 : c = 0
  · subst hc0
    simp [ObjectGuid.ofEntry]
  · simp only [ObjectGuid.ofEntry, if_pos hc0]
    exact composed_low32 c e _ _ hc (by have := highShift_ge hi; omega)

/-- C3: for every tag, every subtype and every 32-bit counter, `GetCounter` of either
constructor's result is the counter, and the counter is exactly the low 32 bits of the raw
value. -/
theorem GetCounter_compose (hi : HighGuid) (e c : Nat) (hc : c < 2 ^ 32) :
    (ObjectGuid.ofEntry hi e c).GetCounter = c ∧
    (ObjectGuid.ofCounter hi c).GetCounter = c ∧
    (ObjectGuid.ofEntry hi e c)._guid % 2 ^ 32 = c ∧
    (ObjectGuid.ofCounter hi c)._guid % 2 ^ 32 = c := by
  have h1 := raw_low32_ofEntry hi e c hc
  have h2 := raw_low32_ofEntry hi 0 c hc
  rw [← ofCounter_eq_ofEntry_zero] at h2
  have m1 := h1
  have m2 := h2
  rw [show (0x00000000FFFFFFFF : Nat) = 2 ^ 32 - 1 from rfl,
    Nat.and_pow_two_sub_one_eq_mod] at m1 m2
  refine ⟨?_, ?_, m1, m2⟩
  · unfold ObjectGuid.GetCounter
    rw [h1]
    omega
  · unfold ObjectGuid.GetCounter
    rw [h2]
    omega

/-- Witness for C3: `Vehicle`, an out-of-range subtype `0xFFFFFFFF`, counter `0xFFFFFFFF`. -/
theorem GetCounter_compose_witness :
    (ObjectGuid.ofEntry HighGuid.Vehicle 0xFFFFFFFF 0xFFFFFFFF).GetCounter = 0xFFFFFFFF ∧
    (ObjectGuid.ofCounter HighGuid.Vehicle 0xFFFFFFFF).GetCounter = 0xFFFFFFFF ∧
    (ObjectGuid.ofEntry HighGuid.Vehicle 0xFFFFFFFF 0xFFFFFFFF)._guid % 2 ^ 32 = 0xFFFFFFFF ∧
    (ObjectGuid.ofCounter HighGuid.Vehicle 0xFFFFFFFF)._guid % 2 ^ 32 = 0xFFFFFFFF :=
  GetCounter_compose HighGuid.Vehicle 0xFFFFFFFF 0xFFFFFFFF (by decide)

theorem raw_eq_zero_iff (hi : HighGuid) (e c : Nat) (hc : c < 2 ^ 32) :
    (ObjectGuid.ofEntry hi e c)._guid = 0 ↔ c = 0 := by
  constructor
  · intro h
    have h1 := raw_low32_ofEntry hi e c hc
    rw [h] at h1
    simpa using h1.symm
  · intro h
    subst h
    simp [ObjectGuid.ofEntry]

/-- C4: for every tag and subtype, either constructor yields raw value 0 (equivalently
`IsEmpty`, equivalently the identifier `Empty`) if and only if the counter is 0. -/
theorem empty_iff_zero_counter (hi : HighGuid) (e c : Nat) (hc : c < 2 ^ 32) :
    ((ObjectGuid.ofEntry hi e c)._guid = 0 ↔ c = 0) ∧
    ((ObjectGuid.ofEntry hi e c).IsEmpty = true ↔ c = 0) ∧
    (ObjectGuid.ofEntry hi e c = ObjectGuid.Empty ↔ c = 0) ∧
    ((ObjectGuid.ofCounter hi c)._guid = 0 ↔ c = 0) ∧
    ((ObjectGuid.ofCounter hi c).IsEmpty = true ↔ c = 0) ∧
    (ObjectGuid.ofCounter hi c = ObjectGuid.Empty ↔ c = 0) := by
  have h1 := raw_eq_zero_iff hi e c hc
  have h2 := raw_eq_zero_iff hi 0 c hc
  rw [← ofCounter_eq_ofEntry_zero] at h2
  have ext : ∀ g : ObjectGuid, g = ObjectGuid.Empty ↔ g._guid = 0 := by
    intro g
    cases g
    simp [ObjectGuid.Empty]
  refine ⟨h1, ?_, ?_, h2, ?_, ?_⟩
  · simpa [ObjectGuid.IsEmpty] using h1
  · rw [ext]; exact h1
  · simpa [ObjectGuid.IsEmpty] using h2
  · rw [ext]; exact h2

/-- Witness for C4: `Unit` with subtype 7 and counter 0 against counter 3. -/
theorem empty_iff_zero_counter_witness :
    (((ObjectGuid.ofEntry HighGuid.Unit 7 0)._guid = 0 ↔ (0 : Nat) = 0) ∧
     ((ObjectGuid.ofEntry HighGuid.Unit 7 0).IsEmpty = true ↔ (0 : Nat) = 0) ∧
     (ObjectGuid.ofEntry HighGuid.Unit 7 0 = ObjectGuid.Empty ↔ (0 : Nat) = 0) ∧
     ((ObjectGuid.ofCounter HighGuid.Unit 0)._guid = 0 ↔ (0 : Nat) = 0) ∧
     ((ObjectGuid.ofCounter HighGuid.Unit 0).IsEmpty = true ↔ (0 : Nat) = 0) ∧
     (ObjectGuid.ofCounter HighGuid.Unit 0 = ObjectGuid.Empty ↔ (0 : Nat) = 0)) ∧
    ((ObjectGuid.ofEntry HighGuid.Unit 7 3)._guid = 0 ↔ (3 : Nat) = 0) :=
  ⟨empty_iff_zero_counter HighGuid.Unit 7 0 (by decide),
   (empty_iff_zero_counter HighGuid.Unit 7 3 (by decide)).1⟩

/-- For disjoint fields the bitwise composition is a sum. -/
theorem composed_eq_add (c e H s : Nat) (hs : s = 48 ∨ s = 52) (hc : c < 2 ^ 32)
    (he : e < 2 ^ (s - 32)) (hH : H < 2 ^ (64 - s)) :
    c ||| ((e <<< 32) % 2 ^ 64) ||| ((H <<< s) % 2 ^ 64) = H * 2 ^ s + e * 2 ^ 32 + c := by
  rcases hs with rfl | rfl
  · norm_num at he hH
    simp only [Nat.shiftLeft_eq]
    rw [Nat.mod_eq_of_lt (by omega), Nat.mod_eq_of_lt (by omega)]
    rw [Nat.or_comm c, Nat.mul_comm e, ← Nat.mul_add_lt_is_or hc e]
    rw [Nat.or_comm, Nat.mul_comm H,
      ← Nat.mul_add_lt_is_or (show 2 ^ 32 * e + c < 2 ^ 48 by omega) H]
    omega
  · norm_num at he hH
    simp only [Nat.shiftLeft_eq]
    rw [Nat.mod_eq_of_lt (by omega), Nat.mod_eq_of_lt (by omega)]
    rw [Nat.or_comm c, Nat.mul_comm e, ← Nat.mul_add_lt_is_or hc e]
    rw [Nat.or_comm, Nat.mul_comm H,
      ← Nat.mul_add_lt_is_or (show 2 ^ 32 * e + c < 2 ^ 52 by omega) H]
    omega

/-- Every declared tag is non-negative and fits above its shift inside 64 bits. -/
theorem declared_toUInt64 :
    ∀ hi ∈ HighGuid.declared,
      (hi.toUInt64 : Int) = hi.val ∧ hi.toUInt64 < 2 ^ (64 - ObjectGuid.highShift hi) := by
  decide

/-- C5: bit-exact layout. For a declared tag other than `Corpse` and `AreaTrigger`, a subtype
below `2^20` and a non-zero 32-bit counter the raw value is `tag*2^52 + subtype*2^32 + counter`;
for `Corpse` and `AreaTrigger` with a subtype below `2^16` it is
`tag*2^48 + subtype*2^32 + counter`. In both cases each field is recovered from its own bit
range (so the ranges are disjoint and no tag bit is truncated), and `Unit, 1234, 1` gives
`0xF13004D200000001`. -/
theorem raw_layout (hi : HighGuid) (e c : Nat) (hd : hi ∈ HighGuid.declared)
    (hc : c < 2 ^ 32) (hc0 : c ≠ 0) :
    (hi ≠ HighGuid.Corpse → hi ≠ HighGuid.AreaTrigger → e < 2 ^ 20 →
      (((ObjectGuid.ofEntry hi e c)._guid : Int) = hi.val * 2 ^ 52 + e * 2 ^ 32 + c ∧
       (ObjectGuid.ofEntry hi e c)._guid % 2 ^ 32 = c ∧
       (ObjectGuid.ofEntry hi e c)._guid / 2 ^ 32 % 2 ^ 20 = e ∧
       (((ObjectGuid.ofEntry hi e c)._guid / 2 ^ 52 : Nat) : Int) = hi.val)) ∧
    ((hi = HighGuid.Corpse ∨ hi = HighGuid.AreaTrigger) → e < 2 ^ 16 →
      (((ObjectGuid.ofEntry hi e c)._guid : Int) = hi.val * 2 ^ 48 + e * 2 ^ 32 + c ∧
       (ObjectGuid.ofEntry hi e c)._guid % 2 ^ 32 = c ∧
       (ObjectGuid.ofEntry hi e c)._guid / 2 ^ 32 % 2 ^ 16 = e ∧
       (((ObjectGuid.ofEntry hi e c)._guid / 2 ^ 48 : Nat) : Int) = hi.val)) ∧
    (ObjectGuid.ofEntry HighGuid.Unit 1234 1)._guid = 0xF13004D200000001 := by
  obtain ⟨hval, hlt⟩ := declared_toUInt64 hi hd
  refine ⟨?_, ?_, by decide⟩
  · intro h1 h2 he
    have hs : ObjectGuid.highShift hi = 52 := by simp [ObjectGuid.highShift, h1, h2]
    rw [hs] at hlt
    have hraw : (ObjectGuid.ofEntry hi e c)._guid
        = hi.toUInt64 * 2 ^ 52 + e * 2 ^ 32 + c := by
      simp only [ObjectGuid.ofEntry, if_pos hc0, hs]
      exact composed_eq_add c e _ 52 (Or.inr rfl) hc (by norm_num; exact he) hlt
    norm_num at hlt
    rw [hraw, ← hval]
    refine ⟨by push_cast; ring, by omega, by omega, ?_⟩
    congr 1
    omega
  · intro h he
    have hs : ObjectGuid.highShift hi = 48 := by simp [ObjectGuid.highShift, h]
    rw [hs] at hlt
    have hraw : (ObjectGuid.ofEntry hi e c)._guid
        = hi.toUInt64 * 2 ^ 48 + e * 2 ^ 32 + c := by
      simp only [ObjectGuid.ofEntry, if_pos hc0, hs]
      exact composed_eq_add c e _ 48 (Or.inl rfl) hc (by norm_num; exact he) hlt
    norm_num at hlt
    rw [hraw, ← hval]
    refine ⟨by push_cast; ring, by omega, by omega, ?_⟩
    congr 1
    omega

/-- Witness for C5: `Corpse` with subtype `0xABCD` and counter 9. -/
theorem raw_layout_witness :
    ((ObjectGuid.ofEntry HighGuid.Corpse 0xABCD 9)._guid : Int)
      = HighGuid.Corpse.val * 2 ^ 48 + (0xABCD : Nat) * 2 ^ 32 + (9 : Nat) :=
  ((raw_layout HighGuid.Corpse 0xABCD 9 (by decide) (by decide) (by decide)).2.1
    (Or.inl rfl) (by decide)).1

/-- Every `Global` tag is a declared tag whose tag field sits at bit 52 and which is not
`DynamicObject`. -/
theorem global_declared (hi : HighGuid) (hg : ObjectGuidTraits.Global hi = true) :
    hi ∈ HighGuid.declared ∧ hi ≠ HighGuid.Corpse ∧ hi ≠ HighGuid.AreaTrigger ∧
      hi ≠ HighGuid.DynamicObject := by
  simp only [ObjectGuidTraits.Global, Bool.or_eq_true, decide_eq_true_eq] at hg
  rcases hg with ((((((h | h) | h) | h) | h) | h) | h) | h <;> subst h <;> decide

theorem toUInt64_Player : HighGuid.Player.toUInt64 = 0 := by decide

/-- C6: for every `Global` tag and every non-zero 32-bit counter, the two-argument constructor
decodes to that tag, subtype 0 and that counter; for `Player` the raw value is the counter
itself, e.g. counter 5 gives raw 5. -/
theorem global_construction (hi : HighGuid) (c : Nat)
    (hg : ObjectGuidTraits.Global hi = true) (hc : c < 2 ^ 32) (hc0 : c ≠ 0) :
    (ObjectGuid.ofCounter hi c).GetHigh = hi ∧
    (ObjectGuid.ofCounter hi c).GetEntry = 0 ∧
    (ObjectGuid.ofCounter hi c).GetCounter = c ∧
    (ObjectGuid.ofCounter HighGuid.Player c)._guid = c ∧
    (ObjectGuid.ofCounter HighGuid.Player 5)._guid = 5 := by
  obtain ⟨hd, hco, hat, hdy⟩ := global_declared hi hg
  have hs : ObjectGuid.highShift hi = 52 := by simp [ObjectGuid.highShift, hco, hat]
  rw [ofCounter_eq_ofEntry_zero]
  refine ⟨?_, ?_, ?_, ?_, by decide⟩
  · rw [GetHigh_ofEntry hi 0 c (by norm_num) hc hc0]
    exact (highOfTop_declared hi hd 0 (by norm_num)).2
      ⟨fun h => absurd h hdy, fun h => absurd h hco, fun h => absurd h hat⟩
  · unfold ObjectGuid.GetEntry
    rw [entryField_shift52 hi 0 c (by norm_num) hc hc0 hs]
    simp
  · unfold ObjectGuid.GetCounter
    rw [raw_low32_ofEntry hi 0 c hc]
    omega
  · simp [ObjectGuid.ofCounter, hc0, toUInt64_Player]

/-- Witness for C6: `Guild` with counter 77. -/
theorem global_construction_witness :
    (ObjectGuid.ofCounter HighGuid.Guild 77).GetHigh = HighGuid.Guild ∧
    (ObjectGuid.ofCounter HighGuid.Guild 77).GetEntry = 0 ∧
    (ObjectGuid.ofCounter HighGuid.Guild 77).GetCounter = 77 ∧
    (ObjectGuid.ofCounter HighGuid.Player 77)._guid = 77 ∧
    (ObjectGuid.ofCounter HighGuid.Player 5)._guid = 5 :=
  global_construction HighGuid.Guild 77 (by decide) (by decide) (by decide)

/-- C7: the identifier with raw value 0 is `IsEmpty` and satisfies none of the category
predicates. -/
theorem empty_excluded_from_predicates :
    (ObjectGuid.ofRaw 0).IsEmpty = true ∧
    ObjectGuid.ofRaw 0 = ObjectGuid.Empty ∧
    (ObjectGuid.ofRaw 0).IsCreature = false ∧
    (ObjectGuid.ofRaw 0).IsPet = false ∧
    (ObjectGuid.ofRaw 0).IsVehicle = false ∧
    (ObjectGuid.ofRaw 0).IsCreatureOrPet = false ∧
    (ObjectGuid.ofRaw 0).IsCreatureOrVehicle = false ∧
    (ObjectGuid.ofRaw 0).IsAnyTypeCreature = false ∧
    (ObjectGuid.ofRaw 0).IsPlayer = false ∧
    (ObjectGuid.ofRaw 0).IsUnit = false ∧
    (ObjectGuid.ofRaw 0).IsItem = false ∧
    (ObjectGuid.ofRaw 0).IsGameObject = false ∧
    (ObjectGuid.ofRaw 0).IsDynamicObject = false ∧
    (ObjectGuid.ofRaw 0).IsCorpse = false ∧
    (ObjectGuid.ofRaw 0).IsAreaTrigger = false ∧
    (ObjectGuid.ofRaw 0).IsBattleground = false ∧
    (ObjectGuid.ofRaw 0).IsTransport = false ∧
    (ObjectGuid.ofRaw 0).IsMOTransport = false ∧
    (ObjectGuid.ofRaw 0).IsAnyTypeGameObject = false ∧
    (ObjectGuid.ofRaw 0).IsInstance = false ∧
    (ObjectGuid.ofRaw 0).IsGroup = false ∧
    (ObjectGuid.ofRaw 0).IsGuild = false := by
  decide

/-! ## Counter generator -/

theorem overflow_mem_calls_iff (high h : HighGuid) (g : ObjectGuidGeneratorBase) :
    HookCall.HandleCounterOverflow h ∈ (ObjectGuidGenerator.Generate high g).calls ↔
      (h = high ∧ g._nextGuid ≥ 0xFFFFFFFE) := by
  unfold ObjectGuidGenerator.Generate ObjectGuid.GetMaxCounterOf
  by_cases h1 : g._nextGuid ≥ 0xFFFFFFFF - 1 <;>
    by_cases h2 : high = HighGuid.Unit ∨ high = HighGuid.GameObject <;>
    simp [h1, h2]

theorem run_fst_length (high : HighGuid) (n : Nat) (g : ObjectGuidGeneratorBase) :
    (ObjectGuidGenerator.run high n g).1.length = n := by
  induction n generalizing g with
  | zero => rfl
  | succ n ih => simp [ObjectGuidGenerator.run, ih]

/-- The result of call number `k` (counted from 0) in a run is `Generate` applied to the cursor
advanced `k` times modulo `2^32`. -/
theorem run_getElem (high : HighGuid) (n k s : Nat) (hk : k < n) :
    (ObjectGuidGenerator.run high n ⟨s % 2 ^ 32⟩).1[k]? =
      some (ObjectGuidGenerator.Generate high ⟨(s + k) % 2 ^ 32⟩) := by
  induction n generalizing k s with
  | zero => omega
  | succ n ih =>
    cases k with
    | zero => simp [ObjectGuidGenerator.run]
    | succ k =>
      simp only [ObjectGuidGenerator.run, List.getElem?_cons_succ]
      have hstep : (ObjectGuidGenerator.Generate high ⟨s % 2 ^ 32⟩).gen
          = ⟨(s + 1) % 2 ^ 32⟩ := by
        simp [ObjectGuidGenerator.Generate]
      rw [hstep, ih k (s + 1) (by omega)]
      congr 3
      omega

/-- The cursor after `n` calls is the start cursor advanced `n` times modulo `2^32`. -/
theorem run_snd (high : HighGuid) (n s : Nat) :
    (ObjectGuidGenerator.run high n ⟨s % 2 ^ 32⟩).2 = ⟨(s + n) % 2 ^ 32⟩ := by
  induction n generalizing s with
  | zero => simp [ObjectGuidGenerator.run]
  | succ n ih =>
    simp only [ObjectGuidGenerator.run]
    have hstep : (ObjectGuidGenerator.Generate high ⟨s % 2 ^ 32⟩).gen
        = ⟨(s + 1) % 2 ^ 32⟩ := by
      simp [ObjectGuidGenerator.Generate]
    rw [hstep, ih (s + 1)]
    congr 2
    omega

/-- The values returned by a run, in call order. -/
theorem run_values_mod (high : HighGuid) (n s : Nat) :
    (ObjectGuidGenerator.run high n ⟨s % 2 ^ 32⟩).1.map GenerateResult.value =
      (List.range' s n).map (fun v => v % 2 ^ 32) := by
  induction n generalizing s with
  | zero => simp [ObjectGuidGenerator.run]
  | succ n ih =>
    simp only [ObjectGuidGenerator.run, List.map_cons, List.range'_succ]
    have hstep : (ObjectGuidGenerator.Generate high ⟨s % 2 ^ 32⟩).gen
        = ⟨(s + 1) % 2 ^ 32⟩ := by
      simp [ObjectGuidGenerator.Generate]
    rw [hstep, ih (s + 1)]
    simp [ObjectGuidGenerator.Generate]

/-- The values returned by a run that stays below `2^32`. -/
theorem run_values (high : HighGuid) (n s : Nat) (h : s + n ≤ 2 ^ 32) :
    (ObjectGuidGenerator.run high n ⟨s⟩).1.map GenerateResult.value = List.range' s n := by
  have hs : s % 2 ^ 32 = s ∨ n = 0 := by omega
  rcases hs with hs | hs
  · have := run_values_mod high n s
    rw [hs] at this
    rw [this]
    conv => rhs; rw [← List.map_id (List.range' s n)]
    apply List.map_congr_left
    intro v hv
    rw [List.mem_range'_1] at hv
    simp only [id]
    omega
  · subst hs
    simp [ObjectGuidGenerator.run]

/-- Call number `k` of a run started at a 32-bit cursor `s`. -/
theorem run_getElem_of_lt (high : HighGuid) (n k s : Nat) (hk : k < n) (hs : s < 2 ^ 32) :
    (ObjectGuidGenerator.run high n ⟨s⟩).1[k]? =
      some (ObjectGuidGenerator.Generate high ⟨(s + k) % 2 ^ 32⟩) := by
  have h := run_getElem high n k s hk
  rwa [Nat.mod_eq_of_lt hs] at h

theorem run_getElem_lt (high : HighGuid) (n k : Nat) (g : ObjectGuidGeneratorBase)
    (r : GenerateResult) (hr : (ObjectGuidGenerator.run high n g).1[k]? = some r) : k < n := by
  have h := (List.getElem?_eq_some.1 hr).1
  rwa [run_fst_length] at h

/-- C8: from cursor `s`, `n` consecutive `Generate()` calls with `s + n ≤ 0xFFFFFFFE` return
`s, s+1, ..., s+n-1` in that order (strictly increasing, without repeats), never call the
overflow handler and leave the cursor at `s + n`; from the default start the first five
results are 1, 2, 3, 4, 5. -/
theorem sequential_issuance (high : HighGuid) (s n : Nat) (h : s + n ≤ 0xFFFFFFFE) :
    (ObjectGuidGenerator.run high n ⟨s⟩).1.map GenerateResult.value = List.range' s n ∧
    ((ObjectGuidGenerator.run high n ⟨s⟩).1.map GenerateResult.value).Pairwise (· < ·) ∧
    ((ObjectGuidGenerator.run high n ⟨s⟩).1.map GenerateResult.value).Nodup ∧
    (∀ r ∈ (ObjectGuidGenerator.run high n ⟨s⟩).1,
      ∀ h' : HighGuid, HookCall.HandleCounterOverflow h' ∉ r.calls) ∧
    (ObjectGuidGenerator.run high n ⟨s⟩).2._nextGuid = s + n ∧
    (ObjectGuidGenerator.run high 5 ObjectGuidGeneratorBase.newDefault).1.map
      GenerateResult.value = [1, 2, 3, 4, 5] := by
  have hs : s < 2 ^ 32 := by omega
  have hv := run_values high n s (by omega)
  refine ⟨hv, ?_, ?_, ?_, ?_, (run_values high 5 1 (by norm_num)).trans (by decide)⟩
  · rw [hv]
    exact List.pairwise_lt_range' s n
  · rw [hv]
    exact List.nodup_range' s n
  · intro r hr h' hmem
    obtain ⟨k, hk⟩ := List.mem_iff_getElem?.1 hr
    have hkn := run_getElem_lt high n k _ r hk
    rw [run_getElem_of_lt high n k s hkn hs] at hk
    have hk' := Option.some.inj hk
    rw [← hk', overflow_mem_calls_iff] at hmem
    have hlt : (s + k) % 2 ^ 32 = s + k := Nat.mod_eq_of_lt (by omega)
    have := hmem.2
    simp only [hlt] at this
    omega
  · have h2 := run_snd high n s
    rw [Nat.mod_eq_of_lt hs] at h2
    rw [h2]
    exact Nat.mod_eq_of_lt (by omega)

/-- Witness for C8: a `Unit` generator at cursor 100 issuing three values. -/
theorem sequential_issuance_witness :
    (ObjectGuidGenerator.run HighGuid.Unit 3 ⟨100⟩).1.map GenerateResult.value
      = List.range' 100 3 ∧
    (ObjectGuidGenerator.run HighGuid.Unit 3 ⟨100⟩).2._nextGuid = 100 + 3 :=
  ⟨(sequential_issuance HighGuid.Unit 100 3 (by decide)).1,
   (sequential_issuance HighGuid.Unit 100 3 (by decide)).2.2.2.2.1⟩

/-- C9: a `Generate()` call invokes the overflow handler exactly when the value it is about
to return is at least `GetMaxCounter(high) - 1 = 0xFFFFFFFE`. From the default start 1, call
number `k < 0xFFFFFFFD` returns `k + 1` without invoking it, call number `0xFFFFFFFD` returns
`0xFFFFFFFE` and invokes it, and after `Set(0xFFFFFFFE)` the handler call is the first thing
`Generate()` does. -/
theorem overflow_threshold (high : HighGuid) (g : ObjectGuidGeneratorBase) (k : Nat)
    (hk : k < 0xFFFFFFFD) :
    (HookCall.HandleCounterOverflow high ∈ (ObjectGuidGenerator.Generate high g).calls ↔
      (ObjectGuidGenerator.Generate high g).value ≥ ObjectGuid.GetMaxCounterOf high - 1) ∧
    ObjectGuid.GetMaxCounterOf high - 1 = 0xFFFFFFFE ∧
    (∀ n, k < n → ∃ r,
      (ObjectGuidGenerator.run high n ObjectGuidGeneratorBase.newDefault).1[k]? = some r ∧
      r.value = k + 1 ∧ HookCall.HandleCounterOverflow high ∉ r.calls) ∧
    (∀ n, 0xFFFFFFFD < n → ∃ r,
      (ObjectGuidGenerator.run high n ObjectGuidGeneratorBase.newDefault).1[0xFFFFFFFD]?
        = some r ∧
      r.value = 0xFFFFFFFE ∧ HookCall.HandleCounterOverflow high ∈ r.calls) ∧
    (ObjectGuidGenerator.Generate high (g.Set 0xFFFFFFFE)).calls.head?
      = some (HookCall.HandleCounterOverflow high) ∧
    (ObjectGuidGenerator.Generate high (g.Set 0xFFFFFFFE)).value = 0xFFFFFFFE := by
  refine ⟨?_, rfl, ?_, ?_, ?_, rfl⟩
  · rw [overflow_mem_calls_iff]
    simp [ObjectGuidGenerator.Generate, ObjectGuid.GetMaxCounterOf]
  · intro n hn
    refine ⟨_, run_getElem_of_lt high n k 1 hn (by norm_num), ?_, ?_⟩
    · simp only [ObjectGuidGenerator.Generate]
      omega
    · rw [overflow_mem_calls_iff]
      intro hc
      have := hc.2
      simp only at this
      omega
  · intro n hn
    refine ⟨_, run_getElem_of_lt high n 0xFFFFFFFD 1 hn (by norm_num), ?_, ?_⟩
    · simp [ObjectGuidGenerator.Generate]
    · rw [overflow_mem_calls_iff]
      exact ⟨rfl, by norm_num⟩
  · simp [ObjectGuidGenerator.Generate, ObjectGuidGeneratorBase.Set,
      ObjectGuid.GetMaxCounterOf]

/-- Witness for C9: a `GameObject` generator, checked at call number 2 of a run of four. -/
theorem overflow_threshold_witness :
    (HookCall.HandleCounterOverflow HighGuid.GameObject ∈
        (ObjectGuidGenerator.Generate HighGuid.GameObject ⟨0xFFFFFFFE⟩).calls ↔
      (ObjectGuidGenerator.Generate HighGuid.GameObject ⟨0xFFFFFFFE⟩).value ≥
        ObjectGuid.GetMaxCounterOf HighGuid.GameObject - 1) ∧
    (∃ r,
      (ObjectGuidGenerator.run HighGuid.GameObject 4 ObjectGuidGeneratorBase.newDefault).1[2]?
        = some r ∧
      r.value = 2 + 1 ∧ HookCall.HandleCounterOverflow HighGuid.GameObject ∉ r.calls) :=
  ⟨(overflow_threshold HighGuid.GameObject ⟨0xFFFFFFFE⟩ 2 (by decide)).1,
   (overflow_threshold HighGuid.GameObject ⟨0xFFFFFFFE⟩ 2 (by decide)).2.2.1 4 (by decide)⟩

/-! ### Exhaustion with the overflow handler as a stop -/

/-- When the handler hands control back, the caller sees exactly what `Generate` does. -/
theorem GenerateCall_of_returns (high : HighGuid) (g : ObjectGuidGeneratorBase) :
    ObjectGuidGenerator.GenerateCall true high g =
      { calls := (ObjectGuidGenerator.Generate high g).calls
        value := some (ObjectGuidGenerator.Generate high g).value
        gen := (ObjectGuidGenerator.Generate high g).gen } := by
  simp [ObjectGuidGenerator.GenerateCall]

/-- A call at a cursor below the threshold returns the cursor and advances it by one. -/
theorem GenerateCall_below (high : HighGuid) (s : Nat) (h : s < 0xFFFFFFFE) :
    ObjectGuidGenerator.GenerateCall false high ⟨s⟩ =
      { calls := (ObjectGuidGenerator.Generate high ⟨s⟩).calls
        value := some s
        gen := ⟨s + 1⟩ } := by
  have h1 : ¬ (s ≥ ObjectGuid.GetMaxCounterOf high - 1 ∧ false = false) := by
    simp only [ObjectGuid.GetMaxCounterOf]
    omega
  have hv : (ObjectGuidGenerator.Generate high ⟨s⟩).value = s := rfl
  have hg : (ObjectGuidGenerator.Generate high ⟨s⟩).gen = ⟨s + 1⟩ := by
    simp only [ObjectGuidGenerator.Generate]
    congr 1
    omega
  unfold ObjectGuidGenerator.GenerateCall
  rw [if_neg h1, hv, hg]

/-- A call at a cursor at or above the threshold enters the handler and stops there. -/
theorem GenerateCall_stop (high : HighGuid) (s : Nat) (h : 0xFFFFFFFE ≤ s) :
    ObjectGuidGenerator.GenerateCall false high ⟨s⟩ =
      { calls := [HookCall.HandleCounterOverflow high]
        value := none
        gen := ⟨s⟩ } := by
  have h1 : s ≥ ObjectGuid.GetMaxCounterOf high - 1 ∧ false = false := by
    refine ⟨?_, rfl⟩
    simp only [ObjectGuid.GetMaxCounterOf]
    omega
  unfold ObjectGuidGenerator.GenerateCall
  rw [if_pos h1]

theorem runCalls_fst_length (b : Bool) (high : HighGuid) (n : Nat)
    (g : ObjectGuidGeneratorBase) :
    (ObjectGuidGenerator.runCalls b high n g).1.length = n := by
  induction n generalizing g with
  | zero => rfl
  | succ n ih => simp [ObjectGuidGenerator.runCalls, ih]

theorem runCalls_getElem_lt (b : Bool) (high : HighGuid) (n k : Nat)
    (g : ObjectGuidGeneratorBase) (o : GenerateOutcome)
    (ho : (ObjectGuidGenerator.runCalls b high n g).1[k]? = some o) : k < n := by
  have h := (List.getElem?_eq_some.1 ho).1
  rwa [runCalls_fst_length] at h

/-- Call number `k` of a run with a handler that keeps control is made at the cursor advanced
`k` times but held at the threshold `0xFFFFFFFE` (or at the start cursor when that is already
at or above the threshold). -/
theorem runCalls_getElem (high : HighGuid) (n k s : Nat) (hk : k < n) :
    (ObjectGuidGenerator.runCalls false high n ⟨s⟩).1[k]? =
      some (ObjectGuidGenerator.GenerateCall false high ⟨max s (min (s + k) 0xFFFFFFFE)⟩) := by
  induction n generalizing k s with
  | zero => omega
  | succ n ih =>
    cases k with
    | zero =>
      have h0 : max s (min (s + 0) 0xFFFFFFFE) = s := by omega
      simp [ObjectGuidGenerator.runCalls, h0]
    | succ k =>
      simp only [ObjectGuidGenerator.runCalls, List.getElem?_cons_succ]
      by_cases hs : s < 0xFFFFFFFE
      · rw [GenerateCall_below high s hs]
        simp only
        rw [ih k (s + 1) (by omega)]
        have e : max (s + 1) (min (s + 1 + k) 0xFFFFFFFE)
            = max s (min (s + (k + 1)) 0xFFFFFFFE) := by omega
        rw [e]
      · rw [GenerateCall_stop high s (by omega)]
        simp only
        rw [ih k s (by omega)]
        have e : max s (min (s + k) 0xFFFFFFFE) = max s (min (s + (k + 1)) 0xFFFFFFFE) := by
          omega
        rw [e]

/-- C10: with the overflow handler as the fatal stop the spec describes, no `Generate()` call
of a run started at a 32-bit cursor `s ≥ 1` returns 0: call number `k` returns `s + k` while
that is below `0xFFFFFFFE`, and from then on no call returns a value at all. -/
theorem zero_never_generated (high : HighGuid) (s n k : Nat) (o : GenerateOutcome)
    (hs1 : 1 ≤ s) (hs : s < 2 ^ 32)
    (ho : (ObjectGuidGenerator.runCalls ObjectGuidGeneratorBase.HandleCounterOverflowReturns
      high n ⟨s⟩).1[k]? = some o) :
    o.value ≠ some 0 ∧
    (s + k < 0xFFFFFFFE → o.value = some (s + k)) ∧
    (0xFFFFFFFE ≤ s + k → o.value = none) := by
  have hkn := runCalls_getElem_lt _ high n k _ o ho
  have hfalse : ObjectGuidGeneratorBase.HandleCounterOverflowReturns = false := rfl
  rw [hfalse, runCalls_getElem high n k s hkn] at ho
  have ho' := Option.some.inj ho
  by_cases hlt : s + k < 0xFFFFFFFE
  · have hc : max s (min (s + k) 0xFFFFFFFE) = s + k := by omega
    rw [hc, GenerateCall_below high (s + k) hlt] at ho'
    rw [← ho']
    refine ⟨?_, fun _ => rfl, fun h => by omega⟩
    simp only [ne_eq, Option.some.injEq]
    omega
  · have hc : 0xFFFFFFFE ≤ max s (min (s + k) 0xFFFFFFFE) := by omega
    rw [GenerateCall_stop high _ hc] at ho'
    rw [← ho']
    exact ⟨by simp, fun h => absurd h hlt, fun _ => rfl⟩

/-- Witness for C10: a `Player` generator started at 1 returns 3 on its third call, and one
started at `0xFFFFFFFD` returns nothing on its third call. -/
theorem zero_never_generated_witness :
    (ObjectGuidGenerator.GenerateCall false HighGuid.Player ⟨3⟩).value ≠ some 0 ∧
    (ObjectGuidGenerator.GenerateCall false HighGuid.Player ⟨3⟩).value = some (1 + 2) ∧
    (ObjectGuidGenerator.GenerateCall false HighGuid.Player ⟨0xFFFFFFFE⟩).value = none :=
  ⟨(zero_never_generated HighGuid.Player 1 3 2
      (ObjectGuidGenerator.GenerateCall false HighGuid.Player ⟨3⟩)
      (by decide) (by decide) (by decide)).1,
   (zero_never_generated HighGuid.Player 1 3 2
      (ObjectGuidGenerator.GenerateCall false HighGuid.Player ⟨3⟩)
      (by decide) (by decide) (by decide)).2.1 (by decide),
   (zero_never_generated HighGuid.Player 0xFFFFFFFD 3 2
      (ObjectGuidGenerator.GenerateCall false HighGuid.Player ⟨0xFFFFFFFE⟩)
      (by decide) (by decide) (by decide)).2.2 (by decide)⟩

theorem overflow_mem_GenerateCall_iff (high : HighGuid) (s : Nat) :
    HookCall.HandleCounterOverflow high ∈
        (ObjectGuidGenerator.GenerateCall false high ⟨s⟩).calls ↔
      0xFFFFFFFE ≤ s := by
  by_cases h : s < 0xFFFFFFFE
  · rw [GenerateCall_below high s h]
    simp only
    rw [overflow_mem_calls_iff]
    simp only [true_and]
  · rw [GenerateCall_stop high s (by omega)]
    simp only [List.mem_singleton, true_iff]
    omega

/-- C11: with the overflow handler as the fatal stop the spec describes, once a `Generate()`
call of a run has invoked the overflow handler, every later call of the run invokes it too,
returns no value and leaves the cursor where it was: the cursor never wraps and no value is
issued after an overflow signal. -/
theorem overflow_is_terminal (high : HighGuid) (s n j k : Nat) (oj ok : GenerateOutcome)
    (hs : s < 2 ^ 32)
    (hj : (ObjectGuidGenerator.runCalls ObjectGuidGeneratorBase.HandleCounterOverflowReturns
      high n ⟨s⟩).1[j]? = some oj)
    (hk : (ObjectGuidGenerator.runCalls ObjectGuidGeneratorBase.HandleCounterOverflowReturns
      high n ⟨s⟩).1[k]? = some ok)
    (hjk : j < k) (hover : HookCall.HandleCounterOverflow high ∈ oj.calls) :
    HookCall.HandleCounterOverflow high ∈ ok.calls ∧ ok.value = none ∧ ok.gen = oj.gen ∧
    0xFFFFFFFE ≤ ok.gen._nextGuid ∧ ok.gen._nextGuid < 2 ^ 32 := by
  have hjn := runCalls_getElem_lt _ high n j _ oj hj
  have hkn := runCalls_getElem_lt _ high n k _ ok hk
  have hfalse : ObjectGuidGeneratorBase.HandleCounterOverflowReturns = false := rfl
  rw [hfalse, runCalls_getElem high n j s hjn] at hj
  rw [hfalse, runCalls_getElem high n k s hkn] at hk
  have hj' := Option.some.inj hj
  have hk' := Option.some.inj hk
  rw [← hj', overflow_mem_GenerateCall_iff] at hover
  have hck : 0xFFFFFFFE ≤ max s (min (s + k) 0xFFFFFFFE) := by omega
  have hcj : max s (min (s + j) 0xFFFFFFFE) = max s (min (s + k) 0xFFFFFFFE) := by omega
  rw [GenerateCall_stop high _ hover] at hj'
  rw [GenerateCall_stop high _ hck] at hk'
  rw [← hj', ← hk']
  refine ⟨by simp, rfl, by simp [hcj], hck, ?_⟩
  simp only
  omega

/-- Witness for C11: a `Pet` generator at cursor `0xFFFFFFFD` run for three calls; the second
call invokes the overflow handler and so does the third. -/
theorem overflow_is_terminal_witness :
    HookCall.HandleCounterOverflow HighGuid.Pet ∈
      (ObjectGuidGenerator.GenerateCall false HighGuid.Pet ⟨0xFFFFFFFE⟩).calls ∧
    (ObjectGuidGenerator.GenerateCall false HighGuid.Pet ⟨0xFFFFFFFE⟩).value = none :=
  ⟨(overflow_is_terminal HighGuid.Pet 0xFFFFFFFD 3 1 2
      (ObjectGuidGenerator.GenerateCall false HighGuid.Pet ⟨0xFFFFFFFE⟩)
      (ObjectGuidGenerator.GenerateCall false HighGuid.Pet ⟨0xFFFFFFFE⟩)
      (by decide) (by decide) (by decide) (by decide) (by decide)).1,
   (overflow_is_terminal HighGuid.Pet 0xFFFFFFFD 3 1 2
      (ObjectGuidGenerator.GenerateCall false HighGuid.Pet ⟨0xFFFFFFFE⟩)
      (ObjectGuidGenerator.GenerateCall false HighGuid.Pet ⟨0xFFFFFFFE⟩)
      (by decide) (by decide) (by decide) (by decide) (by decide)).2.1⟩

theorem GetTypeIdOf_undeclared (h : HighGuid) (hu : h ∉ HighGuid.declared) :
    ObjectGuid.GetTypeIdOf h = TypeID.TYPEID_OBJECT := by
  simp only [HighGuid.declared, List.mem_cons, List.mem_singleton, List.not_mem_nil,
    not_or, or_false] at hu
  obtain ⟨h1, -, h3, h4, -, h6, h7, h8, h9, h10, h11, -, h13, -, -, -⟩ := hu
  simp [ObjectGuid.GetTypeIdOf, h1, h3, h4, h6, h7, h8, h9, h10, h11, h13]

/-- C14: for `Unit`, `Pet` and `Vehicle`, a subtype below `2^20` and a non-zero 32-bit counter,
the composed identifier has `GetTypeId() = TYPEID_UNIT` and `GetEntry() = subtype` (1234 for
`Unit, 1234, 1`); `GetTypeId(high)` returns `TYPEID_OBJECT` for `Instance`, `BattleGround`,
`Group`, `Guild` and for every tag value that is not a declared enumerator. -/
theorem creature_family_category (hi : HighGuid) (e c : Nat)
    (hh : hi = HighGuid.Unit ∨ hi = HighGuid.Pet ∨ hi = HighGuid.Vehicle)
    (he : e < 2 ^ 20) (hc : c < 2 ^ 32) (hc0 : c ≠ 0) :
    (ObjectGuid.ofEntry hi e c).GetTypeId = TypeID.TYPEID_UNIT ∧
    (ObjectGuid.ofEntry hi e c).GetEntry = e ∧
    (ObjectGuid.ofEntry HighGuid.Unit 1234 1).GetEntry = 1234 ∧
    (ObjectGuid.ofEntry HighGuid.Unit 1234 1).GetTypeId = TypeID.TYPEID_UNIT ∧
    ObjectGuid.GetTypeIdOf HighGuid.Instance = TypeID.TYPEID_OBJECT ∧
    ObjectGuid.GetTypeIdOf HighGuid.BattleGround = TypeID.TYPEID_OBJECT ∧
    ObjectGuid.GetTypeIdOf HighGuid.Group = TypeID.TYPEID_OBJECT ∧
    ObjectGuid.GetTypeIdOf HighGuid.Guild = TypeID.TYPEID_OBJECT ∧
    (∀ h : HighGuid, h ∉ HighGuid.declared →
      ObjectGuid.GetTypeIdOf h = TypeID.TYPEID_OBJECT) := by
  have hfacts : hi ∈ HighGuid.declared ∧ hi ≠ HighGuid.DynamicObject ∧
      hi ≠ HighGuid.Corpse ∧ hi ≠ HighGuid.AreaTrigger ∧
      ObjectGuid.GetTypeIdOf hi = TypeID.TYPEID_UNIT ∧ ObjectGuid.HasEntryOf hi = true := by
    rcases hh with h | h | h <;> subst h <;> decide
  obtain ⟨hd, hdy, hco, hat, hty, hen⟩ := hfacts
  have hhigh : (ObjectGuid.ofEntry hi e c).GetHigh = hi := by
    rw [GetHigh_ofEntry hi e c he hc hc0]
    exact (highOfTop_declared hi hd (e / 2 ^ 16) (by omega)).2
      ⟨fun h => absurd h hdy, fun h => absurd h hco, fun h => absurd h hat⟩
  have hs : ObjectGuid.highShift hi = 52 := by simp [ObjectGuid.highShift, hco, hat]
  refine ⟨?_, ?_, by decide, by decide, by decide, by decide, by decide, by decide,
    GetTypeIdOf_undeclared⟩
  · unfold ObjectGuid.GetTypeId
    rw [hhigh, hty]
  · unfold ObjectGuid.GetEntry ObjectGuid.HasEntry
    rw [hhigh, hen, entryField_shift52 hi e c he hc hc0 hs]
    simp only [if_true]
    omega

/-- Witness for C14: `Vehicle` with subtype `0xFFFFF` and counter `0xFFFFFFFF`. -/
theorem creature_family_category_witness :
    (ObjectGuid.ofEntry HighGuid.Vehicle 0xFFFFF 0xFFFFFFFF).GetTypeId = TypeID.TYPEID_UNIT ∧
    (ObjectGuid.ofEntry HighGuid.Vehicle 0xFFFFF 0xFFFFFFFF).GetEntry = 0xFFFFF ∧
    ObjectGuid.GetTypeIdOf ⟨0x123⟩ = TypeID.TYPEID_OBJECT :=
  ⟨(creature_family_category HighGuid.Vehicle 0xFFFFF 0xFFFFFFFF (by decide) (by decide)
      (by decide) (by decide)).1,
   (creature_family_category HighGuid.Vehicle 0xFFFFF 0xFFFFFFFF (by decide) (by decide)
      (by decide) (by decide)).2.1,
   (creature_family_category HighGuid.Vehicle 0xFFFFF 0xFFFFFFFF (by decide) (by decide)
      (by decide) (by decide)).2.2.2.2.2.2.2.2 ⟨0x123⟩ (by decide)⟩

/-- C15: `==` holds exactly for equal raw values, `!=` is its negation, `<` is the unsigned
order of the raw values, which is a strict total order (exactly one of `a < b`, `a == b`,
`b < a`; transitive), and equal identifiers have equal hashes. -/
theorem equality_and_ordering (a b c : ObjectGuid) (hash64 : Nat → Nat) :
    (a.opEq b = true ↔ a.GetRawValue = b.GetRawValue) ∧
    (a.opEq b = true ↔ a = b) ∧
    a.opNe b = !a.opEq b ∧
    (a.opLt b = true ↔ a.GetRawValue < b.GetRawValue) ∧
    (a.opLt b || a.opEq b || b.opLt a) = true ∧
    (a.opLt b && a.opEq b) = false ∧
    (a.opLt b && b.opLt a) = false ∧
    (a.opEq b && b.opLt a) = false ∧
    (a.opLt b = true → b.opLt c = true → a.opLt c = true) ∧
    (a.opEq b = true → ObjectGuid.hash hash64 a = ObjectGuid.hash hash64 b) := by
  cases a with
  | mk x =>
  cases b with
  | mk y =>
  cases c with
  | mk z =>
  refine ⟨?_, ?_, ?_, ?_, ?_, ?_, ?_, ?_, ?_, ?_⟩ <;>
    simp only [ObjectGuid.opEq, ObjectGuid.opNe, ObjectGuid.opLt, ObjectGuid.hash,
      ObjectGuid.GetRawValue]
  · simp
  · simp
  · by_cases h : x = y <;> simp [h]
  · simp
  · rcases Nat.lt_trichotomy x y with h | h | h
    · simp [h]
    · simp [h]
    · simp [h]
  · by_cases h : x = y
    · simp [h]
    · simp [h]
  · by_cases h : x < y
    · have : ¬ y < x := by omega
      simp [this]
    · simp [h]
  · by_cases h : x = y
    · simp [h]
    · simp [h]
  · simp only [decide_eq_true_eq]
    intro h1 h2
    omega
  · simp only [decide_eq_true_eq]
    intro h
    rw [h]

/-- Witness for C15: raw values 3, 5 and 9. -/
theorem equality_and_ordering_witness :
    (ObjectGuid.ofRaw 3).opLt (ObjectGuid.ofRaw 9) = true ∧
    ObjectGuid.hash (fun v => v % 7) (ObjectGuid.ofRaw 5)
      = ObjectGuid.hash (fun v => v % 7) (ObjectGuid.ofRaw 5) :=
  ⟨(equality_and_ordering (ObjectGuid.ofRaw 3) (ObjectGuid.ofRaw 5) (ObjectGuid.ofRaw 9)
      (fun v => v % 7)).2.2.2.2.2.2.2.2.1 (by decide) (by decide),
   (equality_and_ordering (ObjectGuid.ofRaw 5) (ObjectGuid.ofRaw 5) (ObjectGuid.ofRaw 9)
      (fun v => v % 7)).2.2.2.2.2.2.2.2.2 (by decide)⟩

/-- C16: no tag value has both traits; `Create<tag>(counter)` exists exactly for
`Mo_Transport`, `Group`, `Instance`, `BattleGround`, `Player`, `Item`/`Container`, `Transport`
and `Guild`, `Create<tag>(entry, counter)` exactly for `Unit`, `Vehicle`, `Pet`, `GameObject`,
`DynamicObject`, `Corpse` and `AreaTrigger`, and every other tag value admits neither. -/
theorem construction_gating (hi : HighGuid) (e c : Nat) :
    (ObjectGuidTraits.Global hi && ObjectGuidTraits.MapSpecific hi) = false ∧
    ((ObjectGuid.CreateGlobal hi c).isSome && (ObjectGuid.CreateMapSpecific hi e c).isSome)
      = false ∧
    ((ObjectGuid.CreateGlobal hi c).isSome = true ↔
      hi ∈ [HighGuid.Mo_Transport, HighGuid.Group, HighGuid.Instance, HighGuid.BattleGround,
        HighGuid.Player, HighGuid.Item, HighGuid.Container, HighGuid.Transport,
        HighGuid.Guild]) ∧
    ((ObjectGuid.CreateMapSpecific hi e c).isSome = true ↔
      hi ∈ [HighGuid.Unit, HighGuid.Vehicle, HighGuid.Pet, HighGuid.GameObject,
        HighGuid.DynamicObject, HighGuid.Corpse, HighGuid.AreaTrigger]) ∧
    ((ObjectGuid.CreateGlobal hi c = none ∧ ObjectGuid.CreateMapSpecific hi e c = none) ↔
      hi ∉ [HighGuid.Mo_Transport, HighGuid.Group, HighGuid.Instance, HighGuid.BattleGround,
        HighGuid.Player, HighGuid.Item, HighGuid.Container, HighGuid.Transport,
        HighGuid.Guild, HighGuid.Unit, HighGuid.Vehicle, HighGuid.Pet, HighGuid.GameObject,
        HighGuid.DynamicObject, HighGuid.Corpse, HighGuid.AreaTrigger]) := by
  have hcont : HighGuid.Container = HighGuid.Item := rfl
  have hG : ObjectGuidTraits.Global hi = true ↔
      hi ∈ [HighGuid.Mo_Transport, HighGuid.Group, HighGuid.Instance, HighGuid.BattleGround,
        HighGuid.Player, HighGuid.Item, HighGuid.Container, HighGuid.Transport,
        HighGuid.Guild] := by
    simp only [ObjectGuidTraits.Global, Bool.or_eq_true, decide_eq_true_eq, List.mem_cons,
      List.mem_singleton, List.not_mem_nil, or_false, hcont]
    tauto
  have hM : ObjectGuidTraits.MapSpecific hi = true ↔
      hi ∈ [HighGuid.Unit, HighGuid.Vehicle, HighGuid.Pet, HighGuid.GameObject,
        HighGuid.DynamicObject, HighGuid.Corpse, HighGuid.AreaTrigger] := by
    simp only [ObjectGuidTraits.MapSpecific, Bool.or_eq_true, decide_eq_true_eq,
      List.mem_cons, List.mem_singleton, List.not_mem_nil, or_false]
    tauto
  have hboth : (ObjectGuidTraits.Global hi && ObjectGuidTraits.MapSpecific hi) = false := by
    cases hg : ObjectGuidTraits.Global hi with
    | false => rfl
    | true =>
      have hmem := hG.1 hg
      simp only [List.mem_cons, List.mem_singleton, List.not_mem_nil, or_false] at hmem
      rcases hmem with h | h | h | h | h | h | h | h | h <;> subst h <;> decide
  have hcg : (ObjectGuid.CreateGlobal hi c).isSome = ObjectGuidTraits.Global hi := by
    unfold ObjectGuid.CreateGlobal
    cases ObjectGuidTraits.Global hi <;> rfl
  have hcm : (ObjectGuid.CreateMapSpecific hi e c).isSome
      = ObjectGuidTraits.MapSpecific hi := by
    unfold ObjectGuid.CreateMapSpecific
    cases ObjectGuidTraits.MapSpecific hi <;> rfl
  refine ⟨hboth, ?_, ?_, ?_, ?_⟩
  · rw [hcg, hcm]
    exact hboth
  · rw [hcg]
    exact hG
  · rw [hcm]
    exact hM
  · rw [← Option.not_isSome_iff_eq_none, ← Option.not_isSome_iff_eq_none, hcg, hcm, hG, hM]
    show _ ↔ hi ∉
      [HighGuid.Mo_Transport, HighGuid.Group, HighGuid.Instance, HighGuid.BattleGround,
        HighGuid.Player, HighGuid.Item, HighGuid.Container, HighGuid.Transport,
        HighGuid.Guild] ++
      [HighGuid.Unit, HighGuid.Vehicle, HighGuid.Pet, HighGuid.GameObject,
        HighGuid.DynamicObject, HighGuid.Corpse, HighGuid.AreaTrigger]
    rw [List.mem_append, not_or]

/-! ## Packed encoding -/

theorem packedMask_lt (raw n : Nat) : packedMask raw n < 2 ^ n := by
  induction n with
  | zero => simp [packedMask]
  | succ n ih =>
    simp only [packedMask]
    have h2 : 2 ^ (n + 1) = 2 ^ n + 2 ^ n := by rw [Nat.pow_succ]; omega
    split <;> omega

/-- Bit `i` of the mask is set iff `i` is one of the covered positions and byte `i` is
non-zero. -/
theorem packedMask_testBit (raw n i : Nat) :
    (packedMask raw n).testBit i = (decide (i < n) && decide (packedByte raw i ≠ 0)) := by
  induction n with
  | zero => simp [packedMask]
  | succ n ih =>
    simp only [packedMask]
    have hlt := packedMask_lt raw n
    by_cases hb : packedByte raw n ≠ 0
    · rw [if_pos hb, Nat.add_comm]
      rcases Nat.lt_trichotomy i n with h | h | h
      · rw [Nat.testBit_two_pow_add_gt h, ih]
        have h1 : i < n + 1 := by omega
        simp [h, h1]
      · subst h
        rw [Nat.testBit_two_pow_add_eq, Nat.testBit_lt_two_pow hlt]
        simp [hb]
      · have hbig : 2 ^ n + packedMask raw n < 2 ^ i := by
          have h2 : 2 ^ (n + 1) = 2 ^ n + 2 ^ n := by rw [Nat.pow_succ]; omega
          have h3 : 2 ^ (n + 1) ≤ 2 ^ i := Nat.pow_le_pow_right (by norm_num) (by omega)
          omega
        rw [Nat.testBit_lt_two_pow hbig]
        have h1 : ¬ i < n + 1 := by omega
        simp [h1]
    · rw [if_neg hb, Nat.add_zero, ih]
      by_cases h : i = n
      · subst h
        simp [hb]
      · have h1 : (i < n + 1) ↔ (i < n) := by omega
        simp [h1]

/-- Placing byte `i` on top of the bytes below position `i`. -/
theorem packedByte_step (raw i : Nat) :
    raw % 2 ^ (8 * i) ||| (packedByte raw i <<< (8 * i)) = raw % 2 ^ (8 * (i + 1)) := by
  have hlt : raw % 2 ^ (8 * i) < 2 ^ (8 * i) := Nat.mod_lt _ (by positivity)
  have hpow : 2 ^ (8 * (i + 1)) = 2 ^ (8 * i) * 2 ^ 8 := by
    rw [← Nat.pow_add]
    congr 1
  rw [Nat.or_comm, Nat.shiftLeft_eq, Nat.mul_comm, ← Nat.mul_add_lt_is_or hlt, hpow,
    Nat.mod_mul, Nat.add_comm]
  simp [packedByte, Nat.shiftRight_eq_div_pow]

theorem packedPayload_length (raw count i : Nat) :
    (packedPayload raw count i).length ≤ count := by
  induction count generalizing i with
  | zero => simp [packedPayload]
  | succ count ih =>
    simp only [packedPayload]
    have := ih (i + 1)
    split
    · simp only [List.length_cons]
      omega
    · omega

/-- Reading back the payload of the positions `i .. i + count - 1` extends the bytes below
position `i` to the bytes below position `i + count`, and leaves what follows unread. -/
theorem readPackGUIDLoop_payload (raw count i : Nat) (tail : List Nat)
    (hpos : i + count ≤ 8) :
    readPackGUIDLoop (packedMask raw 8) count i (packedPayload raw count i ++ tail)
        (raw % 2 ^ (8 * i)) =
      some (raw % 2 ^ (8 * (i + count)), tail) := by
  induction count generalizing i with
  | zero => simp [readPackGUIDLoop, packedPayload]
  | succ count ih =>
    have hbit := packedMask_testBit raw 8 i
    have hi8 : i < 8 := by omega
    have hidx : i + 1 + count = i + (count + 1) := by omega
    simp only [readPackGUIDLoop, packedPayload]
    by_cases hb : packedByte raw i ≠ 0
    · have ht : (packedMask raw 8).testBit i = true := by rw [hbit]; simp [hi8, hb]
      rw [if_pos ht, if_pos hb]
      simp only [List.cons_append]
      rw [packedByte_step, ih (i + 1) (by omega), hidx]
    · have ht : ¬ (packedMask raw 8).testBit i = true := by rw [hbit]; simp [hb]
      rw [if_neg ht, if_neg hb]
      have hz : packedByte raw i = 0 := by simpa using hb
      have hstep := packedByte_step raw i
      rw [hz, Nat.zero_shiftLeft, Nat.or_zero] at hstep
      rw [hstep, ih (i + 1) (by omega), hidx]

/-- C17: for every 64-bit raw value, decoding the packed form built by `PackedGuid(v)` gives
`v` back (and leaves any following bytes unread); the packed form has between 1 and 9 bytes,
and the packed form of 0 is the single byte `0x00`. -/
theorem packed_round_trip (v : Nat) (tail : List Nat) (hv : v < 2 ^ 64) :
    readPackGUID (PackedGuid.ofRaw v)._packedGuid = some (v, []) ∧
    readPackGUID ((PackedGuid.ofRaw v)._packedGuid ++ tail) = some (v, tail) ∧
    1 ≤ (PackedGuid.ofRaw v).size ∧
    (PackedGuid.ofRaw v).size ≤ 9 ∧
    (PackedGuid.ofRaw 0)._packedGuid = [0x00] ∧
    (PackedGuid.ofRaw 0).size = 1 := by
  have key : ∀ t : List Nat,
      readPackGUID ((PackedGuid.ofRaw v)._packedGuid ++ t) = some (v, t) := by
    intro t
    have h := readPackGUIDLoop_payload v 8 0 t (by norm_num)
    simp only [Nat.mul_zero, Nat.pow_zero, Nat.mod_one, Nat.zero_add] at h
    rw [Nat.mod_eq_of_lt (by norm_num; exact hv)] at h
    simpa [PackedGuid.ofRaw, appendPackGUID, readPackGUID] using h
  have hlen := packedPayload_length v 8 0
  refine ⟨?_, key tail, ?_, ?_, by decide, by decide⟩
  · have := key []
    simpa using this
  · simp [PackedGuid.size, PackedGuid.ofRaw, appendPackGUID]
  · simp only [PackedGuid.size, PackedGuid.ofRaw, appendPackGUID, List.length_cons]
    omega

/-- Witness for C17: the raw value `0xF130000004D20001` packs to six bytes and reads back. -/
theorem packed_round_trip_witness :
    readPackGUID (PackedGuid.ofRaw 0xF130000004D20001)._packedGuid
      = some (0xF130000004D20001, []) ∧
    (PackedGuid.ofRaw 0xF130000004D20001).size ≤ 9 :=
  ⟨(packed_round_trip 0xF130000004D20001 [] (by decide)).1,
   (packed_round_trip 0xF130000004D20001 [] (by decide)).2.2.2.1⟩

/-! ## Injectivity and exclusivity -/

/-- The raw value of a composed identifier as a sum, for a declared tag and a subtype that
fits below the tag field. -/
theorem raw_ofEntry_eq_sum (hi : HighGuid) (e c : Nat) (hd : hi ∈ HighGuid.declared)
    (he : e < 2 ^ (ObjectGuid.highShift hi - 32)) (hc : c < 2 ^ 32) (hc0 : c ≠ 0) :
    (ObjectGuid.ofEntry hi e c)._guid
      = hi.toUInt64 * 2 ^ ObjectGuid.highShift hi + e * 2 ^ 32 + c := by
  have hlt := (declared_toUInt64 hi hd).2
  have hs : ObjectGuid.highShift hi = 48 ∨ ObjectGuid.highShift hi = 52 := by
    unfold ObjectGuid.highShift
    split
    · exact Or.inl rfl
    · exact Or.inr rfl
  simp only [ObjectGuid.ofEntry, if_pos hc0]
  exact composed_eq_add c e _ _ hs hc he hlt

/-- C18 (amended): composition is injective on the triples whose subtype does not reach into
the tag field: for declared tags, subtypes below `2^20` that are moreover below `2^16` when
the tag is `Corpse` or `AreaTrigger` and whose bits 16..19 are neither 1 nor 2 when the tag is
`DynamicObject`, and non-zero 32-bit counters, equal identifiers come from equal tags,
subtypes and counters. -/
theorem compose_injective (t1 t2 : HighGuid) (e1 e2 c1 c2 : Nat)
    (hd1 : t1 ∈ HighGuid.declared) (hd2 : t2 ∈ HighGuid.declared)
    (he1 : e1 < 2 ^ 20) (he2 : e2 < 2 ^ 20)
    (hdyn1 : t1 = HighGuid.DynamicObject → e1 / 2 ^ 16 ≠ 1 ∧ e1 / 2 ^ 16 ≠ 2)
    (hdyn2 : t2 = HighGuid.DynamicObject → e2 / 2 ^ 16 ≠ 1 ∧ e2 / 2 ^ 16 ≠ 2)
    (hf1 : t1 = HighGuid.Corpse ∨ t1 = HighGuid.AreaTrigger → e1 < 2 ^ 16)
    (hf2 : t2 = HighGuid.Corpse ∨ t2 = HighGuid.AreaTrigger → e2 < 2 ^ 16)
    (hc1 : c1 < 2 ^ 32) (hc2 : c2 < 2 ^ 32) (h01 : c1 ≠ 0) (h02 : c2 ≠ 0)
    (heq : ObjectGuid.ofEntry t1 e1 c1 = ObjectGuid.ofEntry t2 e2 c2) :
    t1 = t2 ∧ e1 = e2 ∧ c1 = c2 := by
  have tag : ∀ (t : HighGuid) (e c : Nat), t ∈ HighGuid.declared → e < 2 ^ 20 →
      (t = HighGuid.DynamicObject → e / 2 ^ 16 ≠ 1 ∧ e / 2 ^ 16 ≠ 2) →
      (t = HighGuid.Corpse ∨ t = HighGuid.AreaTrigger → e < 2 ^ 16) →
      c < 2 ^ 32 → c ≠ 0 → (ObjectGuid.ofEntry t e c).GetHigh = t := by
    intro t e c hd he hdyn hf hc hc0
    rw [GetHigh_ofEntry t e c he hc hc0]
    refine (highOfTop_declared t hd (e / 2 ^ 16) (by omega)).2 ⟨hdyn, ?_, ?_⟩
    · intro h
      have := hf (Or.inl h)
      omega
    · intro h
      have := hf (Or.inr h)
      omega
  have fits : ∀ (t : HighGuid) (e : Nat), e < 2 ^ 20 →
      (t = HighGuid.Corpse ∨ t = HighGuid.AreaTrigger → e < 2 ^ 16) →
      e < 2 ^ (ObjectGuid.highShift t - 32) := by
    intro t e he hf
    unfold ObjectGuid.highShift
    split
    · rename_i h
      have := hf h
      norm_num
      exact this
    · norm_num
      exact he
  have ht : t1 = t2 := by
    have h1 := tag t1 e1 c1 hd1 he1 hdyn1 hf1 hc1 h01
    have h2 := tag t2 e2 c2 hd2 he2 hdyn2 hf2 hc2 h02
    rw [heq] at h1
    rw [← h1, h2]
  subst ht
  have hc : c1 = c2 := by
    have h1 := raw_low32_ofEntry t1 e1 c1 hc1
    have h2 := raw_low32_ofEntry t1 e2 c2 hc2
    rw [heq] at h1
    rw [← h1, h2]
  subst hc
  refine ⟨rfl, ?_, rfl⟩
  have h1 := raw_ofEntry_eq_sum t1 e1 c1 hd1 (fits t1 e1 he1 hf1) hc1 h01
  have h2 := raw_ofEntry_eq_sum t1 e2 c1 hd1 (fits t1 e2 he2 hf2) hc1 h01
  rw [heq] at h1
  rw [h1] at h2
  omega

/-- Witness for C18 (amended): `DynamicObject, 0x30005, 1` composed twice. -/
theorem compose_injective_witness :
    HighGuid.DynamicObject = HighGuid.DynamicObject ∧ (0x30005 : Nat) = 0x30005 ∧
      (1 : Nat) = 1 :=
  compose_injective HighGuid.DynamicObject HighGuid.DynamicObject 0x30005 0x30005 1 1
    (by decide) (by decide) (by decide) (by decide) (by decide) (by decide) (by decide)
    (by decide) (by decide) (by decide) (by decide) (by decide) rfl

/-- C18 (as stated) fails: `DynamicObject, 0x10005, 1` and `Corpse, 5, 1` are one identifier,
so are `Corpse, 0, 1` and `Corpse, 0x10000, 1`, and so are `Corpse, 0x20000, 1` and
`AreaTrigger, 0x10000, 1`; likewise `DynamicObject, 0x20005, 1` and `AreaTrigger, 5, 1`,
`AreaTrigger, 0, 1` and `AreaTrigger, 0x20000, 1`, `Corpse, 0x40000, 1` and
`DynamicObject, 0x50000, 1`. All subtypes fit in 20 bits. -/
theorem compose_collisions :
    ObjectGuid.ofEntry HighGuid.DynamicObject 0x10005 1 = ObjectGuid.ofEntry HighGuid.Corpse 5 1 ∧
    HighGuid.DynamicObject ≠ HighGuid.Corpse ∧
    ObjectGuid.ofEntry HighGuid.Corpse 0 1 = ObjectGuid.ofEntry HighGuid.Corpse 0x10000 1 ∧
    ObjectGuid.ofEntry HighGuid.Corpse 0x20000 1
      = ObjectGuid.ofEntry HighGuid.AreaTrigger 0x10000 1 ∧
    HighGuid.Corpse ≠ HighGuid.AreaTrigger ∧
    HighGuid.DynamicObject ∈ HighGuid.declared ∧ HighGuid.Corpse ∈ HighGuid.declared ∧
    HighGuid.AreaTrigger ∈ HighGuid.declared ∧
    0x10005 < 2 ^ 20 ∧ 0x10000 < 2 ^ 20 ∧ 0x20000 < 2 ^ 20 ∧
    ObjectGuid.ofEntry HighGuid.DynamicObject 0x20005 1
      = ObjectGuid.ofEntry HighGuid.AreaTrigger 5 1 ∧
    HighGuid.DynamicObject ≠ HighGuid.AreaTrigger ∧
    ObjectGuid.ofEntry HighGuid.AreaTrigger 0 1
      = ObjectGuid.ofEntry HighGuid.AreaTrigger 0x20000 1 ∧
    ObjectGuid.ofEntry HighGuid.Corpse 0x40000 1
      = ObjectGuid.ofEntry HighGuid.DynamicObject 0x50000 1 ∧
    0x20005 < 2 ^ 20 ∧ 0x40000 < 2 ^ 20 ∧ 0x50000 < 2 ^ 20 := by
  decide

/-- The tags tested by the fifteen single-category predicates, in the order of the
predicates. -/
theorem count_tag_tests (h : HighGuid) (b : Bool) :
    [decide (h = HighGuid.Unit), decide (h = HighGuid.Pet), decide (h = HighGuid.Vehicle),
      (!b && decide (h = HighGuid.Player)), decide (h = HighGuid.Item),
      decide (h = HighGuid.GameObject), decide (h = HighGuid.DynamicObject),
      decide (h = HighGuid.Corpse), decide (h = HighGuid.AreaTrigger),
      decide (h = HighGuid.BattleGround), decide (h = HighGuid.Transport),
      decide (h = HighGuid.Mo_Transport), decide (h = HighGuid.Instance),
      decide (h = HighGuid.Group), decide (h = HighGuid.Guild)].count true ≤ 1 := by
  by_cases hm : h ∈ HighGuid.declared
  · simp only [HighGuid.declared, List.mem_cons, List.mem_singleton, List.not_mem_nil,
      or_false] at hm
    rcases hm with h | h | h | h | h | h | h | h | h | h | h | h | h | h | h | h <;>
      subst h <;> cases b <;> decide
  · simp only [HighGuid.declared, List.mem_cons, List.mem_singleton, List.not_mem_nil,
      not_or, or_false] at hm
    obtain ⟨h1, -, h3, h4, h5, h6, h7, h8, h9, h10, h11, h12, h13, h14, h15, h16⟩ := hm
    simp [h1, h3, h4, h5, h6, h7, h8, h9, h10, h11, h12, h13, h14, h15, h16]

theorem GetHigh_range (g : ObjectGuid) :
    g.GetHigh = HighGuid.Corpse ∨ g.GetHigh = HighGuid.AreaTrigger ∨
      (0 ≤ g.GetHigh.val ∧ g.GetHigh.val < 0x1000) := by
  unfold ObjectGuid.GetHigh
  simp only
  split
  · rename_i h
    rcases h with h | h
    · exact Or.inl h
    · exact Or.inr (Or.inl h)
  · right; right
    simp only [HighGuid.ofNat]
    rw [show (0x00000FFF : Nat) = 2 ^ 12 - 1 from rfl, Nat.and_pow_two_sub_one_eq_mod]
    omega

/-- C19: for every raw value at most one of the fifteen single-category predicates holds, and
`GetHigh()` is `Corpse` (`0xF101`), `AreaTrigger` (`0xF102`) or a value below `0x1000`. -/
theorem predicates_exclusive (g : ObjectGuid) :
    [g.IsCreature, g.IsPet, g.IsVehicle, g.IsPlayer, g.IsItem, g.IsGameObject,
      g.IsDynamicObject, g.IsCorpse, g.IsAreaTrigger, g.IsBattleground, g.IsTransport,
      g.IsMOTransport, g.IsInstance, g.IsGroup, g.IsGuild].count true ≤ 1 ∧
    (g.GetHigh = HighGuid.Corpse ∨ g.GetHigh = HighGuid.AreaTrigger ∨
      (0 ≤ g.GetHigh.val ∧ g.GetHigh.val < 0x1000)) ∧
    HighGuid.Corpse.val = 0xF101 ∧ HighGuid.AreaTrigger.val = 0xF102 :=
  ⟨count_tag_tests g.GetHigh g.IsEmpty, GetHigh_range g, rfl, rfl⟩

theorem typeId_unit_iff (h : HighGuid) :
    (decide (h = HighGuid.Unit) || decide (h = HighGuid.Pet) || decide (h = HighGuid.Vehicle))
        = true ↔
      ObjectGuid.GetTypeIdOf h = TypeID.TYPEID_UNIT := by
  by_cases hm : h ∈ HighGuid.declared
  · simp only [HighGuid.declared, List.mem_cons, List.mem_singleton, List.not_mem_nil,
      or_false] at hm
    rcases hm with h | h | h | h | h | h | h | h | h | h | h | h | h | h | h | h <;>
      subst h <;> decide
  · rw [GetTypeIdOf_undeclared h hm]
    simp only [HighGuid.declared, List.mem_cons, List.mem_singleton, List.not_mem_nil,
      not_or, or_false] at hm
    obtain ⟨-, -, -, -, -, h6, h7, h8, -, -, -, -, -, -, -, -⟩ := hm
    simp [h6, h7, h8]

theorem typeId_gameobject_iff (h : HighGuid) :
    (decide (h = HighGuid.GameObject) || decide (h = HighGuid.Transport) ||
        decide (h = HighGuid.Mo_Transport)) = true ↔
      (ObjectGuid.GetTypeIdOf h = TypeID.TYPEID_GAMEOBJECT ∨ h = HighGuid.Transport) := by
  by_cases hm : h ∈ HighGuid.declared
  · simp only [HighGuid.declared, List.mem_cons, List.mem_singleton, List.not_mem_nil,
      or_false] at hm
    rcases hm with h | h | h | h | h | h | h | h | h | h | h | h | h | h | h | h <;>
      subst h <;> decide
  · rw [GetTypeIdOf_undeclared h hm]
    simp only [HighGuid.declared, List.mem_cons, List.mem_singleton, List.not_mem_nil,
      not_or, or_false] at hm
    obtain ⟨-, -, -, h4, h5, -, -, -, -, -, -, -, h13, -, -, -⟩ := hm
    simp [h4, h5, h13]

/-- C20, evaluated on the code: the identifier `ObjectGuid(Transport, 1)` (raw
`0xF120000000000001`) satisfies `IsAnyTypeGameObject` while its `GetTypeId()` is
`TYPEID_OBJECT`, although the sibling tag `Mo_Transport` maps to `TYPEID_GAMEOBJECT`. Apart
from the `Transport` tag the two views agree: `IsAnyTypeCreature` holds exactly when
`GetTypeId()` is `TYPEID_UNIT`, and `IsAnyTypeGameObject` exactly when `GetTypeId()` is
`TYPEID_GAMEOBJECT` or the tag is `Transport`. -/
theorem transport_typeid_mismatch :
    (ObjectGuid.ofCounter HighGuid.Transport 1)._guid = 0xF120000000000001 ∧
    (ObjectGuid.CreateGlobal HighGuid.Transport 1)
      = some (ObjectGuid.ofCounter HighGuid.Transport 1) ∧
    (ObjectGuid.ofCounter HighGuid.Transport 1).IsTransport = true ∧
    (ObjectGuid.ofCounter HighGuid.Transport 1).IsAnyTypeGameObject = true ∧
    (ObjectGuid.ofCounter HighGuid.Transport 1).GetTypeId = TypeID.TYPEID_OBJECT ∧
    ObjectGuid.GetTypeIdOf HighGuid.Mo_Transport = TypeID.TYPEID_GAMEOBJECT ∧
    (∀ g : ObjectGuid, g.IsAnyTypeCreature = true ↔ g.GetTypeId = TypeID.TYPEID_UNIT) ∧
    (∀ g : ObjectGuid, g.IsAnyTypeGameObject = true ↔
      (g.GetTypeId = TypeID.TYPEID_GAMEOBJECT ∨ g.GetHigh = HighGuid.Transport)) :=
  ⟨by decide, by decide, by decide, by decide, by decide, by decide,
   fun g => typeId_unit_iff g.GetHigh, fun g => typeId_gameobject_iff g.GetHigh⟩

end ObjectGuidSpec
